import Mathlib

/-!
Verification of the one-dimensional heat-equation kernel in
`diffusion.py` (functions `heat` and `step`).

The program works on ordered sequences of numbers, modelled as `List α`
over a linear ordered field; instantiating `α := ℚ` gives an executable
exact-arithmetic model of the code, while `α := ℝ` is used for the
analytic convergence statement.  The bare Python `raise Exception` on
the instability check and the `ZeroDivisionError` that Python raises
when a divisor is exactly zero are modelled by an explicit error type
carried in `Except`.
-/

/-- Errors the Python code can raise: the bare `Exception` raised by
`step` when the stability ratio exceeds one half, and the
`ZeroDivisionError` raised by `heat` when `nx - 1` or `nt - 1` is zero
in the derivations `dx = L / (nx - 1)` and `dt = tmax / (nt - 1)`. -/
inductive PyErr : Type where
  | instability : PyErr
  | divByZero : PyErr
deriving DecidableEq

section Model

variable {α : Type} [LinearOrderedField α]

/-- The pure stencil part of `step`, mirroring
`u[:1] + [r * u[i+1] + (1 - 2*r) * u[i] + r * u[i-1] for i in range(1, len(u) - 1)] + u[-1:]`.
Out-of-range accesses cannot occur for the comprehension's index range,
so `List.getD _ _ 0` faithfully represents Python indexing here. -/
def stencil (u : List α) (r : α) : List α :=
  u.take 1 ++
    ((List.range' 1 (u.length - 1 - 1)).map fun i =>
      r * u.getD (i + 1) 0 + (1 - 2 * r) * u.getD i 0 + r * u.getD (i - 1) 0) ++
    u.drop (u.length - 1)

/-- `step(u, dx, dt, alpha)` from `diffusion.py`: computes
`r = alpha * dt / dx ** 2`, raises when `r > 0.5`, and otherwise
returns the stencil-updated sequence. -/
def step (u : List α) (dx dt alpha : α) : Except PyErr (List α) :=
  let r := alpha * dt / dx ^ 2
  if 1 / 2 < r then Except.error PyErr.instability else Except.ok (stencil u r)

/-- Sequential iteration of a fallible operation, as done by
`for t in range(n): u = step(...)`: the first failure aborts the loop. -/
def iterExcept {β ε : Type} (f : β → Except ε β) : ℕ → β → Except ε β
  | 0, u => Except.ok u
  | n + 1, u => f u >>= iterExcept f n

/-- `heat(u, nt, nx, alpha, L, tmax)` from `diffusion.py`: derives
`dx = L / (nx - 1)` and `dt = tmax / (nt - 1)` (Python raises
`ZeroDivisionError` when the divisor is zero, i.e. when `nx = 1`
or `nt = 1`), then applies `step` to the profile `nt - 1` times. -/
def heat (u : List α) (nt nx : ℤ) (alpha L tmax : α) : Except PyErr (List α) :=
  if nx = 1 then Except.error PyErr.divByZero
  else if nt = 1 then Except.error PyErr.divByZero
  else
    iterExcept
      (fun v => step v (L / ((nx : α) - 1)) (tmax / ((nt : α) - 1)) alpha)
      (nt - 1).toNat u

/-- Pure iteration of the stencil, used to describe the successful runs
of the loop in `heat`. -/
def iterStencil (r : α) : ℕ → List α → List α
  | 0, u => u
  | n + 1, u => iterStencil r n (stencil u r)

end Model

section BasicLemmas

variable {α : Type} [LinearOrderedField α]

theorem step_of_stable {u : List α} {dx dt alpha : α}
    (h : alpha * dt / dx ^ 2 ≤ 1 / 2) :
    step u dx dt alpha = Except.ok (stencil u (alpha * dt / dx ^ 2)) := by
  simp only [step]
  rw [if_neg (not_lt.mpr h)]

theorem step_of_unstable {u : List α} {dx dt alpha : α}
    (h : 1 / 2 < alpha * dt / dx ^ 2) :
    step u dx dt alpha = Except.error PyErr.instability := by
  simp only [step]
  rw [if_pos h]

theorem stencil_length {u : List α} (r : α) (h : 2 ≤ u.length) :
    (stencil u r).length = u.length := by
  simp only [stencil, List.length_append, List.length_take, List.length_map,
    List.length_range', List.length_drop]
  omega

theorem iterExcept_of_stable {dx dt alpha : α} (n : ℕ) (u : List α)
    (h : alpha * dt / dx ^ 2 ≤ 1 / 2) :
    iterExcept (fun v => step v dx dt alpha) n u =
      Except.ok (iterStencil (alpha * dt / dx ^ 2) n u) := by
  induction n generalizing u with
  | zero => rfl
  | succ n ih =>
      rw [iterExcept, step_of_stable h]
      simpa [Except.bind] using ih (stencil u (alpha * dt / dx ^ 2))

theorem iterStencil_length (u : List α) (r : α) (n : ℕ) (h : 2 ≤ u.length) :
    (iterStencil r n u).length = u.length := by
  induction n generalizing u with
  | zero => rfl
  | succ n ih =>
      rw [iterStencil, ih (stencil u r) (by rw [stencil_length r h]; exact h),
        stencil_length r h]

theorem stencil_getD_interior (u : List α) (r : α) {i : ℕ}
    (h1 : 1 ≤ i) (h2 : i ≤ u.length - 2) :
    (stencil u r).getD i 0 =
      r * u.getD (i + 1) 0 + (1 - 2 * r) * u.getD i 0 + r * u.getD (i - 1) 0 := by
  have hu : 3 ≤ u.length := by omega
  have htake : (u.take 1).length = 1 := by
    rw [List.length_take]; omega
  have hmid : ((List.range' 1 (u.length - 1 - 1)).map fun j =>
      r * u.getD (j + 1) 0 + (1 - 2 * r) * u.getD j 0 + r * u.getD (j - 1) 0).length =
      u.length - 2 := by
    rw [List.length_map, List.length_range']; omega
  rw [stencil, List.append_assoc, List.getD_append_right _ _ _ _ (by omega),
    htake, List.getD_append _ _ _ _ (by rw [hmid]; omega),
    List.getD_eq_getElem _ _ (by rw [hmid]; omega)]
  rw [List.getElem_map]
  have hlt : i - 1 < (List.range' 1 (u.length - 1 - 1)).length := by
    rw [List.length_range']; omega
  have hidx : (List.range' 1 (u.length - 1 - 1))[i - 1] = i := by
    rw [List.getElem_range'_1]; omega
  rw [hidx]

theorem stencil_head? (u : List α) (r : α) :
    (stencil u r).head? = u.head? := by
  cases u with
  | nil => rfl
  | cons a t => rfl

/-- For a nonempty list, the Python slice `u[-1:]`, i.e.
`u.drop (u.length - 1)`, is the one-element list holding the last entry. -/
theorem drop_length_sub_one_eq {β : Type} (l : List β) (h : l ≠ []) :
    l.drop (l.length - 1) = [l.getLast h] := by
  induction l with
  | nil => exact absurd rfl h
  | cons a t ih =>
      cases t with
      | nil => rfl
      | cons b s =>
          have h2 : (b :: s : List β) ≠ [] := by simp
          have : (a :: b :: s).drop ((a :: b :: s).length - 1) =
              (b :: s).drop ((b :: s).length - 1) := by
            simp [List.length_cons]
          rw [this, ih h2, List.getLast_cons h2]

theorem stencil_getLast? (u : List α) (r : α) :
    (stencil u r).getLast? = u.getLast? := by
  cases u with
  | nil => rfl
  | cons a t =>
      have hne : (a :: t : List α) ≠ [] := by simp
      rw [stencil, drop_length_sub_one_eq _ hne, List.append_assoc,
        List.getLast?_append_of_ne_nil _ (by simp),
        List.getLast?_append_of_ne_nil _ (by simp),
        List.getLast?_eq_getLast_of_ne_nil hne]
      rfl

theorem iterStencil_head? (u : List α) (r : α) (n : ℕ) :
    (iterStencil r n u).head? = u.head? := by
  induction n generalizing u with
  | zero => rfl
  | succ n ih => rw [iterStencil, ih, stencil_head?]

theorem iterStencil_getLast? (u : List α) (r : α) (n : ℕ) :
    (iterStencil r n u).getLast? = u.getLast? := by
  induction n generalizing u with
  | zero => rfl
  | succ n ih => rw [iterStencil, ih, stencil_getLast?]

end BasicLemmas

section OrderLemmas

variable {α : Type} [LinearOrderedField α]

theorem forall₂_getD_le {u v : List α} (h : List.Forall₂ (· ≤ ·) u v) :
    ∀ i : ℕ, u.getD i 0 ≤ v.getD i 0 := by
  induction h with
  | nil => intro i; exact le_refl _
  | cons ha ht ih =>
      intro i
      cases i with
      | zero => exact ha
      | succ j => exact ih j

theorem stencil_mono {u v : List α} {r : α} (hr0 : 0 ≤ r) (hr1 : 2 * r ≤ 1)
    (h : List.Forall₂ (· ≤ ·) u v) :
    List.Forall₂ (· ≤ ·) (stencil u r) (stencil v r) := by
  have hlen : u.length = v.length := h.length_eq
  rw [stencil, stencil, ← hlen]
  have hmid : List.Forall₂ (· ≤ ·)
      ((List.range' 1 (u.length - 1 - 1)).map fun i =>
        r * u.getD (i + 1) 0 + (1 - 2 * r) * u.getD i 0 + r * u.getD (i - 1) 0)
      ((List.range' 1 (u.length - 1 - 1)).map fun i =>
        r * v.getD (i + 1) 0 + (1 - 2 * r) * v.getD i 0 + r * v.getD (i - 1) 0) := by
    rw [List.forall₂_map_left_iff, List.forall₂_map_right_iff, List.forall₂_same]
    intro i _
    have h1 := forall₂_getD_le h (i + 1)
    have h2 := forall₂_getD_le h i
    have h3 := forall₂_getD_le h (i - 1)
    have hw : (0 : α) ≤ 1 - 2 * r := by linarith
    exact add_le_add (add_le_add (mul_le_mul_of_nonneg_left h1 hr0)
      (mul_le_mul_of_nonneg_left h2 hw)) (mul_le_mul_of_nonneg_left h3 hr0)
  exact List.rel_append (List.rel_append (List.forall₂_take 1 h) hmid)
    (List.forall₂_drop _ h)

theorem iterStencil_mono {u v : List α} {r : α} (hr0 : 0 ≤ r) (hr1 : 2 * r ≤ 1)
    (h : List.Forall₂ (· ≤ ·) u v) (n : ℕ) :
    List.Forall₂ (· ≤ ·) (iterStencil r n u) (iterStencil r n v) := by
  induction n generalizing u v with
  | zero => exact h
  | succ n ih => exact ih (stencil_mono hr0 hr1 h)

theorem getD_replicate_of_lt (n : ℕ) (c : α) {j : ℕ} (h : j < n) :
    (List.replicate n c).getD j 0 = c := by
  rw [List.getD_eq_getElem _ _ (by simpa using h), List.getElem_replicate]

theorem stencil_replicate (n : ℕ) (c r : α) (h : 2 ≤ n) :
    stencil (List.replicate n c) r = List.replicate n c := by
  obtain ⟨m, rfl⟩ : ∃ m, n = m + 2 := ⟨n - 2, by omega⟩
  have hlen : (List.replicate (m + 2) c).length = m + 2 := List.length_replicate _ _
  have htake : (List.replicate (m + 2) c).take 1 = [c] := by
    rw [show m + 2 = 1 + (m + 1) by omega, List.replicate_add]
    simp
  have hdrop : (List.replicate (m + 2) c).drop ((List.replicate (m + 2) c).length - 1) =
      [c] := by
    rw [hlen, show m + 2 - 1 = m + 1 by omega, show m + 2 = m + 1 + 1 by omega,
      List.replicate_add]
    simp
  have hmid : ((List.range' 1 ((List.replicate (m + 2) c).length - 1 - 1)).map fun i =>
      r * (List.replicate (m + 2) c).getD (i + 1) 0 +
        (1 - 2 * r) * (List.replicate (m + 2) c).getD i 0 +
        r * (List.replicate (m + 2) c).getD (i - 1) 0) = List.replicate m c := by
    rw [hlen, show m + 2 - 1 - 1 = m by omega]
    rw [List.eq_replicate_iff]
    constructor
    · rw [List.length_map, List.length_range']
    · intro b hb
      obtain ⟨i, hi, rfl⟩ := List.mem_map.mp hb
      obtain ⟨j, hj, rfl⟩ := List.mem_range'.mp hi
      rw [getD_replicate_of_lt _ _ (by omega), getD_replicate_of_lt _ _ (by omega),
        getD_replicate_of_lt _ _ (by omega)]
      ring
  rw [stencil, htake, hdrop, hmid, show m + 2 = 1 + m + 1 by omega, List.replicate_add,
    List.replicate_add]
  simp

theorem iterStencil_replicate (n : ℕ) (c r : α) (h : 2 ≤ n) (k : ℕ) :
    iterStencil r k (List.replicate n c) = List.replicate n c := by
  induction k with
  | zero => rfl
  | succ k ih => rw [iterStencil, stencil_replicate n c r h, ih]

end OrderLemmas

section HeatLemmas

variable {α : Type} [LinearOrderedField α]

/-- Whether an `Except` computation succeeded. -/
def okBool {ε β : Type} : Except ε β → Bool
  | Except.ok _ => true
  | Except.error _ => false

theorem heat_eq_iter (u : List α) (nt nx : ℤ) (alpha L tmax : α)
    (h1 : nx ≠ 1) (h2 : nt ≠ 1) :
    heat u nt nx alpha L tmax =
      iterExcept (fun v => step v (L / ((nx : α) - 1)) (tmax / ((nt : α) - 1)) alpha)
        (nt - 1).toNat u := by
  rw [heat, if_neg h1, if_neg h2]

theorem iterExcept_of_unstable {dx dt alpha : α} (n : ℕ) (u : List α)
    (h : 1 / 2 < alpha * dt / dx ^ 2) :
    iterExcept (fun v => step v dx dt alpha) (n + 1) u =
      Except.error PyErr.instability := by
  rw [iterExcept, step_of_unstable h]
  rfl

theorem iterExcept_step_boundary {dx dt alpha : α} (n : ℕ) (u w : List α)
    (h : iterExcept (fun v => step v dx dt alpha) n u = Except.ok w) :
    w.head? = u.head? ∧ w.getLast? = u.getLast? := by
  by_cases hr : alpha * dt / dx ^ 2 ≤ 1 / 2
  · rw [iterExcept_of_stable n u hr] at h
    obtain rfl := Except.ok.inj h
    exact ⟨iterStencil_head? u _ n, iterStencil_getLast? u _ n⟩
  · cases n with
    | zero =>
        obtain rfl := Except.ok.inj h
        exact ⟨rfl, rfl⟩
    | succ n =>
        rw [iterExcept_of_unstable n u (not_le.mp hr)] at h
        cases h

end HeatLemmas

/-- C1: for a profile of length at least 3 and positive `dx`, `dt`, `alpha`
with stability ratio at most one half, `step` succeeds, the output has the
input's length, and every interior entry equals the synchronous stencil
combination of the pre-step values of the input. -/
theorem C1_step_interior (u : List ℚ) (dx dt alpha : ℚ) (hN : 3 ≤ u.length)
    (hdx : 0 < dx) (hdt : 0 < dt) (ha : 0 < alpha)
    (hr : alpha * dt / dx ^ 2 ≤ 1 / 2) :
    step u dx dt alpha = Except.ok (stencil u (alpha * dt / dx ^ 2)) ∧
    (stencil u (alpha * dt / dx ^ 2)).length = u.length ∧
    ∀ i : ℕ, 1 ≤ i → i ≤ u.length - 2 →
      (stencil u (alpha * dt / dx ^ 2)).getD i 0 =
        alpha * dt / dx ^ 2 * u.getD (i + 1) 0 +
          (1 - 2 * (alpha * dt / dx ^ 2)) * u.getD i 0 +
          alpha * dt / dx ^ 2 * u.getD (i - 1) 0 :=
  ⟨step_of_stable hr, stencil_length _ (by omega),
    fun _ hi1 hi2 => stencil_getD_interior u _ hi1 hi2⟩

/-- Witness for C1 at the profile `[0, 1, 1, 0]` with `dx = 1`, `dt = 1`,
`alpha = 1/4` and interior index `2`. -/
theorem C1_witness :
    step ([0, 1, 1, 0] : List ℚ) 1 1 (1 / 4) =
      Except.ok (stencil ([0, 1, 1, 0] : List ℚ) (1 / 4 * 1 / 1 ^ 2)) ∧
    (stencil ([0, 1, 1, 0] : List ℚ) (1 / 4 * 1 / 1 ^ 2)).length = 4 ∧
    (stencil ([0, 1, 1, 0] : List ℚ) (1 / 4 * 1 / 1 ^ 2)).getD 2 0 =
      1 / 4 * 1 / 1 ^ 2 * 0 + (1 - 2 * (1 / 4 * 1 / 1 ^ 2)) * 1 +
        1 / 4 * 1 / 1 ^ 2 * 1 := by
  obtain ⟨h1, h2, h3⟩ := C1_step_interior [0, 1, 1, 0] 1 1 (1 / 4) (by norm_num)
    (by norm_num) (by norm_num) (by norm_num) (by norm_num)
  exact ⟨h1, h2, h3 2 (by norm_num) (by norm_num)⟩

/-- C2: whenever the stability ratio exceeds one half, `step` fails with
the instability error and produces no output. -/
theorem C2_instability (u : List ℚ) (dx dt alpha : ℚ)
    (h : 1 / 2 < alpha * dt / dx ^ 2) :
    step u dx dt alpha = Except.error PyErr.instability :=
  step_of_unstable h

/-- Witness for C2: the concrete input from the spec, profile
`[0, 1, 1, 0]` with `dx = 0.04`, `dt = 0.02`, `alpha = 0.1`, has ratio
`1.25` and fails. -/
theorem C2_witness :
    step ([0, 1, 1, 0] : List ℚ) 0.04 0.02 0.1 =
      Except.error PyErr.instability :=
  C2_instability [0, 1, 1, 0] 0.04 0.02 0.1 (by norm_num)

/-- C3: boundary invariance — whenever `step` (once) or `heat` (any number
of iterations) succeeds on a profile of length at least 3, the first and
last entries of the output equal those of the input. -/
theorem C3_boundary_invariance (u : List ℚ) (dx dt alpha : ℚ) (nt nx : ℤ)
    (L tmax : ℚ) (hN : 3 ≤ u.length) :
    (∀ v, step u dx dt alpha = Except.ok v →
      v.head? = u.head? ∧ v.getLast? = u.getLast?) ∧
    (∀ w, heat u nt nx alpha L tmax = Except.ok w →
      w.head? = u.head? ∧ w.getLast? = u.getLast?) := by
  constructor
  · intro v hv
    by_cases hr : alpha * dt / dx ^ 2 ≤ 1 / 2
    · rw [step_of_stable hr] at hv
      obtain rfl := Except.ok.inj hv
      exact ⟨stencil_head? u _, stencil_getLast? u _⟩
    · rw [step_of_unstable (not_le.mp hr)] at hv
      cases hv
  · intro w hw
    by_cases h1 : nx = 1
    · rw [heat, if_pos h1] at hw
      cases hw
    · by_cases h2 : nt = 1
      · rw [heat, if_neg h1, if_pos h2] at hw
        cases hw
      · rw [heat_eq_iter u nt nx alpha L tmax h1 h2] at hw
        exact iterExcept_step_boundary _ u w hw

/-- Witness for C3 at the profile `[1, 5, 9]` with `dx = dt = 1`,
`alpha = 1/3`, and `heat` at `nt = 3`, `nx = 3`, `L = 2`, `tmax = 1`. -/
theorem C3_witness :
    (∀ v, step ([1, 5, 9] : List ℚ) 1 1 (1 / 3) = Except.ok v →
      v.head? = ([1, 5, 9] : List ℚ).head? ∧
        v.getLast? = ([1, 5, 9] : List ℚ).getLast?) ∧
    (∀ w, heat ([1, 5, 9] : List ℚ) 3 3 (1 / 3) 2 1 = Except.ok w →
      w.head? = ([1, 5, 9] : List ℚ).head? ∧
        w.getLast? = ([1, 5, 9] : List ℚ).getLast?) :=
  C3_boundary_invariance [1, 5, 9] 1 1 (1 / 3) 3 3 2 1 (by norm_num)

/-- C4: under the documented preconditions, `heat` derives
`dx = L / (nx - 1)` and `dt = tmax / (nt - 1)` and is exactly the
`nt - 1`-fold sequential application of `step` with those parameters,
each application consuming the previous one's output. -/
theorem C4_heat_structure (u : List ℚ) (nt nx : ℤ) (alpha L tmax : ℚ)
    (hnt : 2 ≤ nt) (hnx : 3 ≤ nx) (ha : 0 < alpha) (hL : 0 < L)
    (ht : 0 < tmax) :
    heat u nt nx alpha L tmax =
      iterExcept
        (fun v => step v (L / ((nx : ℚ) - 1)) (tmax / ((nt : ℚ) - 1)) alpha)
        (nt - 1).toNat u :=
  heat_eq_iter u nt nx alpha L tmax (by omega) (by omega)

/-- Witness for C4 at profile `[1, 2, 3]`, `nt = 2`, `nx = 3`,
`alpha = L = tmax = 1`. -/
theorem C4_witness :
    heat ([1, 2, 3] : List ℚ) 2 3 1 1 1 =
      iterExcept
        (fun v => step v (1 / (((3 : ℤ) : ℚ) - 1)) (1 / (((2 : ℤ) : ℚ) - 1)) 1)
        ((2 : ℤ) - 1).toNat [1, 2, 3] :=
  C4_heat_structure [1, 2, 3] 2 3 1 1 1 (by norm_num) (by norm_num)
    (by norm_num) (by norm_num) (by norm_num)

/-- C5: with `nt ≥ 2`, `nx ≥ 2` and positive parameters, `heat` fails —
necessarily with the instability error — exactly when the derived ratio
exceeds one half, and succeeds exactly when it does not. -/
theorem C5_fail_iff (u : List ℚ) (nt nx : ℤ) (alpha L tmax : ℚ)
    (hnt : 2 ≤ nt) (hnx : 2 ≤ nx) (ha : 0 < alpha) (hL : 0 < L)
    (ht : 0 < tmax) :
    (heat u nt nx alpha L tmax = Except.error PyErr.instability ↔
      1 / 2 < alpha * (tmax / ((nt : ℚ) - 1)) / (L / ((nx : ℚ) - 1)) ^ 2) ∧
    (okBool (heat u nt nx alpha L tmax) = true ↔
      alpha * (tmax / ((nt : ℚ) - 1)) / (L / ((nx : ℚ) - 1)) ^ 2 ≤ 1 / 2) := by
  rw [heat_eq_iter u nt nx alpha L tmax (by omega) (by omega)]
  obtain ⟨m, hm⟩ : ∃ m : ℕ, (nt - 1).toNat = m + 1 :=
    ⟨(nt - 1).toNat - 1, by omega⟩
  rw [hm]
  by_cases hr : alpha * (tmax / ((nt : ℚ) - 1)) / (L / ((nx : ℚ) - 1)) ^ 2 ≤ 1 / 2
  · rw [iterExcept_of_stable (m + 1) u hr]
    constructor
    · constructor
      · intro h
        exact Except.noConfusion h
      · intro h
        exact absurd h (not_lt.mpr hr)
    · constructor
      · intro _
        exact hr
      · intro _
        rfl
  · rw [iterExcept_of_unstable m u (not_le.mp hr)]
    constructor
    · constructor
      · intro _
        exact not_le.mp hr
      · intro _
        rfl
    · constructor
      · intro h
        exact Bool.noConfusion h
      · intro h
        exact absurd h hr

/-- Witness for C5 at profile `[0, 1, 0]`, `nt = 2`, `nx = 3`,
`alpha = 1/8`, `L = 1`, `tmax = 1`. -/
theorem C5_witness :
    (heat ([0, 1, 0] : List ℚ) 2 3 (1 / 8) 1 1 = Except.error PyErr.instability ↔
      1 / 2 < 1 / 8 * (1 / (((2 : ℤ) : ℚ) - 1)) / (1 / (((3 : ℤ) : ℚ) - 1)) ^ 2) ∧
    (okBool (heat ([0, 1, 0] : List ℚ) 2 3 (1 / 8) 1 1) = true ↔
      1 / 8 * (1 / (((2 : ℤ) : ℚ) - 1)) / (1 / (((3 : ℤ) : ℚ) - 1)) ^ 2 ≤ 1 / 2) :=
  C5_fail_iff [0, 1, 0] 2 3 (1 / 8) 1 1 (by norm_num) (by norm_num)
    (by norm_num) (by norm_num) (by norm_num)

/-- C6 counterexample: `heat` at `nt = 1` on the profile `[0, 0, 0]`
(with `nx = 3`, `alpha = L = tmax = 1`) does not return the profile
unchanged, contrary to the claim. -/
theorem C6_counterexample :
    heat ([0, 0, 0] : List ℚ) 1 3 1 1 1 ≠ Except.ok [0, 0, 0] := by
  rw [heat, if_neg (by decide), if_pos rfl]
  intro h
  exact Except.noConfusion h

/-- C6 (amended): `heat` called with `nt = 1` fails with the
division-by-zero error raised while deriving `dt = tmax / (nt - 1)`
(or, when additionally `nx = 1`, while deriving `dx`), returning no
profile; it never returns the initial profile. -/
theorem C6_nt_one (u : List ℚ) (nx : ℤ) (alpha L tmax : ℚ) :
    heat u 1 nx alpha L tmax = Except.error PyErr.divByZero := by
  by_cases h : nx = 1
  · rw [heat, if_pos h]
  · rw [heat, if_neg h, if_pos rfl]

/-- C7: `step` on the concrete profile `[0, 1, 1, 0]` with `dx = 0.04`,
`dt = 0.02`, `alpha = 0.01` (ratio `0.125`) returns exactly
`[0, 0.875, 0.875, 0]`. -/
theorem C7_exact_arithmetic :
    step ([0, 1, 1, 0] : List ℚ) 0.04 0.02 0.01 =
      Except.ok [0, 0.875, 0.875, 0] := by
  rw [step_of_stable (by norm_num)]
  congr 1
  with_unfolding_all decide

/-- C9: outside the documented length precondition, with a stable ratio,
the interior computation is empty and the output concatenates the first
and last entries: a two-element profile maps to itself, and a one-element
profile maps to the two-element doubling of its entry (so length is not
preserved there). -/
theorem C9_short_profiles (a b dx dt alpha : ℚ)
    (hr : alpha * dt / dx ^ 2 ≤ 1 / 2) :
    step [a, b] dx dt alpha = Except.ok [a, b] ∧
    step [a] dx dt alpha = Except.ok [a, a] := by
  constructor <;> rw [step_of_stable hr] <;> rfl

/-- Witness for C9 at `a = 3`, `b = 5`, `dx = dt = 1`, `alpha = 1/3`. -/
theorem C9_witness :
    step ([3, 5] : List ℚ) 1 1 (1 / 3) = Except.ok [3, 5] ∧
    step ([3] : List ℚ) 1 1 (1 / 3) = Except.ok [3, 3] := by
  have h := C9_short_profiles 3 5 1 1 (1 / 3) (by norm_num)
  exact h

/-- C10: constant profiles of length at least 3 are fixed points of
`step` under any stable parameters, because the stencil weights sum to
one; consequently `heat` maps a constant profile to itself whenever its
derived ratio is stable. -/
theorem C10_constant_fixed_point (c : ℚ) (n : ℕ) (hn : 3 ≤ n) :
    (∀ dx dt alpha : ℚ, alpha * dt / dx ^ 2 ≤ 1 / 2 →
      step (List.replicate n c) dx dt alpha =
        Except.ok (List.replicate n c)) ∧
    (∀ (nt nx : ℤ) (alpha L tmax : ℚ), 2 ≤ nt → nx ≠ 1 →
      alpha * (tmax / ((nt : ℚ) - 1)) / (L / ((nx : ℚ) - 1)) ^ 2 ≤ 1 / 2 →
      heat (List.replicate n c) nt nx alpha L tmax =
        Except.ok (List.replicate n c)) := by
  constructor
  · intro dx dt alpha hr
    rw [step_of_stable hr, stencil_replicate n c _ (by omega)]
  · intro nt nx alpha L tmax hnt hnx hr
    rw [heat_eq_iter _ nt nx alpha L tmax hnx (by omega),
      iterExcept_of_stable _ _ hr,
      iterStencil_replicate n c _ (by omega)]

/-- Witness for C10 at `c = 2`, `n = 3`, with `dx = dt = 1`,
`alpha = 1/8` for `step` and `nt = 2`, `nx = 3`, `alpha = 1/8`,
`L = tmax = 1` for `heat`. -/
theorem C10_witness :
    step (List.replicate 3 (2 : ℚ)) 1 1 (1 / 8) =
      Except.ok (List.replicate 3 (2 : ℚ)) ∧
    heat (List.replicate 3 (2 : ℚ)) 2 3 (1 / 8) 1 1 =
      Except.ok (List.replicate 3 (2 : ℚ)) := by
  obtain ⟨h1, h2⟩ := C10_constant_fixed_point 2 3 (by norm_num)
  exact ⟨h1 1 1 (1 / 8) (by norm_num),
    h2 2 3 (1 / 8) 1 1 (by norm_num) (by norm_num) (by norm_num)⟩

section TaylorBounds

/-- Imaginary and real parts of the degree-8 partial sum of the complex
exponential series at a purely imaginary argument. -/
theorem exp_I_sum_eval (x : ℝ) :
    (∑ m ∈ Finset.range 9, ((x : ℂ) * Complex.I) ^ m / m.factorial) =
      (((1 : ℝ) - x ^ 2 / 2 + x ^ 4 / 24 - x ^ 6 / 720 + x ^ 8 / 40320 : ℝ) : ℂ) +
        (((x : ℝ) - x ^ 3 / 6 + x ^ 5 / 120 - x ^ 7 / 5040 : ℝ) : ℂ) * Complex.I := by
  simp only [Finset.sum_range_succ, Finset.sum_range_zero, zero_add, Nat.factorial]
  push_cast
  apply Complex.ext <;>
    simp [Complex.add_re, Complex.add_im, Complex.div_re, Complex.div_im, Complex.normSq,
      mul_pow, Complex.I_pow_four, pow_succ] <;>
    ring_nf

/-- Degree-7 Taylor approximation of the sine on the unit interval,
with the series tail bounded through the complex exponential. -/
theorem sin_taylor_bound {x : ℝ} (hx : |x| ≤ 1) :
    |Real.sin x - (x - x ^ 3 / 6 + x ^ 5 / 120 - x ^ 7 / 5040)| ≤ 1 / 300000 := by
  have habs : Complex.abs ((x : ℂ) * Complex.I) ≤ 1 := by
    rw [map_mul, Complex.abs_I, mul_one, Complex.abs_ofReal]
    exact hx
  have hb := Complex.exp_bound habs (n := 9) (by norm_num)
  rw [exp_I_sum_eval] at hb
  have h2 : |Real.sin x - (x - x ^ 3 / 6 + x ^ 5 / 120 - x ^ 7 / 5040)| =
      |(Complex.exp ((x : ℂ) * Complex.I) -
        ((((1 : ℝ) - x ^ 2 / 2 + x ^ 4 / 24 - x ^ 6 / 720 + x ^ 8 / 40320 : ℝ) : ℂ) +
          (((x : ℝ) - x ^ 3 / 6 + x ^ 5 / 120 - x ^ 7 / 5040 : ℝ) : ℂ) * Complex.I)).im| := by
    rw [Complex.sub_im, Complex.add_im, Complex.mul_im, Complex.exp_ofReal_mul_I_im,
      Complex.ofReal_im, Complex.ofReal_im, Complex.ofReal_re, Complex.I_im, Complex.I_re]
    ring_nf
  rw [h2]
  refine le_trans (Complex.abs_im_le_abs _) (le_trans hb ?_)
  have h3 : Complex.abs ((x : ℂ) * Complex.I) ^ 9 ≤ 1 := pow_le_one₀ (by positivity) habs
  calc Complex.abs ((x : ℂ) * Complex.I) ^ 9 *
        (((Nat.succ 9 : ℕ) : ℝ) * (((Nat.factorial 9 : ℕ) : ℝ) * ((9 : ℕ) : ℝ))⁻¹) ≤
      1 * (((Nat.succ 9 : ℕ) : ℝ) * (((Nat.factorial 9 : ℕ) : ℝ) * ((9 : ℕ) : ℝ))⁻¹) :=
        mul_le_mul_of_nonneg_right h3 (by positivity)
    _ ≤ 1 / 300000 := by norm_num [Nat.factorial]

/-- Degree-8 Taylor approximation of the cosine on the unit interval. -/
theorem cos_taylor_bound {x : ℝ} (hx : |x| ≤ 1) :
    |Real.cos x - (1 - x ^ 2 / 2 + x ^ 4 / 24 - x ^ 6 / 720 + x ^ 8 / 40320)| ≤ 1 / 300000 := by
  have habs : Complex.abs ((x : ℂ) * Complex.I) ≤ 1 := by
    rw [map_mul, Complex.abs_I, mul_one, Complex.abs_ofReal]
    exact hx
  have hb := Complex.exp_bound habs (n := 9) (by norm_num)
  rw [exp_I_sum_eval] at hb
  have h2 : |Real.cos x - (1 - x ^ 2 / 2 + x ^ 4 / 24 - x ^ 6 / 720 + x ^ 8 / 40320)| =
      |(Complex.exp ((x : ℂ) * Complex.I) -
        ((((1 : ℝ) - x ^ 2 / 2 + x ^ 4 / 24 - x ^ 6 / 720 + x ^ 8 / 40320 : ℝ) : ℂ) +
          (((x : ℝ) - x ^ 3 / 6 + x ^ 5 / 120 - x ^ 7 / 5040 : ℝ) : ℂ) * Complex.I)).re| := by
    rw [Complex.sub_re, Complex.add_re, Complex.mul_re, Complex.exp_ofReal_mul_I_re,
      Complex.ofReal_re, Complex.ofReal_im, Complex.ofReal_re, Complex.I_im, Complex.I_re]
    ring_nf
  rw [h2]
  refine le_trans (Complex.abs_re_le_abs _) (le_trans hb ?_)
  have h3 : Complex.abs ((x : ℂ) * Complex.I) ^ 9 ≤ 1 := pow_le_one₀ (by positivity) habs
  calc Complex.abs ((x : ℂ) * Complex.I) ^ 9 *
        (((Nat.succ 9 : ℕ) : ℝ) * (((Nat.factorial 9 : ℕ) : ℝ) * ((9 : ℕ) : ℝ))⁻¹) ≤
      1 * (((Nat.succ 9 : ℕ) : ℝ) * (((Nat.factorial 9 : ℕ) : ℝ) * ((9 : ℕ) : ℝ))⁻¹) :=
        mul_le_mul_of_nonneg_right h3 (by positivity)
    _ ≤ 1 / 300000 := by norm_num [Nat.factorial]

theorem abs_sin_sub_sin_le (x y : ℝ) : |Real.sin x - Real.sin y| ≤ |x - y| := by
  rw [Real.sin_sub_sin, abs_mul, abs_mul]
  have h1 : |Real.sin ((x - y) / 2)| ≤ |(x - y) / 2| := Real.abs_sin_le_abs
  have h2 : |Real.cos ((x + y) / 2)| ≤ 1 := Real.abs_cos_le_one _
  have h3 : |(2 : ℝ)| = 2 := by norm_num
  calc |(2 : ℝ)| * |Real.sin ((x - y) / 2)| * |Real.cos ((x + y) / 2)| ≤
      |(2 : ℝ)| * |(x - y) / 2| * 1 := by
        apply mul_le_mul (mul_le_mul_of_nonneg_left h1 (abs_nonneg _)) h2
          (abs_nonneg _) (by positivity)
    _ = |x - y| := by
        rw [h3, mul_one, abs_div, abs_two]
        ring

theorem abs_cos_sub_cos_le (x y : ℝ) : |Real.cos x - Real.cos y| ≤ |x - y| := by
  rw [Real.cos_sub_cos, abs_mul, abs_mul]
  have h1 : |Real.sin ((x - y) / 2)| ≤ |(x - y) / 2| := Real.abs_sin_le_abs
  have h2 : |Real.sin ((x + y) / 2)| ≤ 1 := Real.abs_sin_le_one _
  have h3 : |(-2 : ℝ)| = 2 := by norm_num
  calc |(-2 : ℝ)| * |Real.sin ((x + y) / 2)| * |Real.sin ((x - y) / 2)| ≤
      |(-2 : ℝ)| * 1 * |(x - y) / 2| := by
        apply mul_le_mul (mul_le_mul_of_nonneg_left h2 (abs_nonneg _)) h1
          (abs_nonneg _) (by positivity)
    _ = |x - y| := by
        rw [h3, mul_one, abs_div, abs_two]
        ring

/-- Rational enclosure of the sine from its Taylor polynomial at a nearby
rational point, combining the Lipschitz property with the tail bound. -/
theorem sin_enclosure {x q lo hi : ℝ} (hxq : |x - q| ≤ 1 / 1000000) (hq : |q| ≤ 1)
    (hlo : lo ≤ q - q ^ 3 / 6 + q ^ 5 / 120 - q ^ 7 / 5040 - 13 / 3000000)
    (hhi : q - q ^ 3 / 6 + q ^ 5 / 120 - q ^ 7 / 5040 + 13 / 3000000 ≤ hi) :
    lo ≤ Real.sin x ∧ Real.sin x ≤ hi := by
  have h1 := abs_sin_sub_sin_le x q
  have h2 := sin_taylor_bound hq
  rw [abs_sub_le_iff] at h1 h2
  constructor <;> [linarith [h1.2, h2.2, hxq]; linarith [h1.1, h2.1, hxq]]

/-- Rational enclosure of the cosine, as for `sin_enclosure`. -/
theorem cos_enclosure {x q lo hi : ℝ} (hxq : |x - q| ≤ 1 / 1000000) (hq : |q| ≤ 1)
    (hlo : lo ≤ 1 - q ^ 2 / 2 + q ^ 4 / 24 - q ^ 6 / 720 + q ^ 8 / 40320 - 13 / 3000000)
    (hhi : 1 - q ^ 2 / 2 + q ^ 4 / 24 - q ^ 6 / 720 + q ^ 8 / 40320 + 13 / 3000000 ≤ hi) :
    lo ≤ Real.cos x ∧ Real.cos x ≤ hi := by
  have h1 := abs_cos_sub_cos_le x q
  have h2 := cos_taylor_bound hq
  rw [abs_sub_le_iff] at h1 h2
  constructor <;> [linarith [h1.2, h2.2, hxq]; linarith [h1.1, h2.1, hxq]]

/-- Two-sided bound on `exp (-c)` for small nonnegative `c`, from the
degree-2 Taylor polynomial with an explicit remainder. -/
theorem exp_neg_bounds (c clo chi : ℝ) (h0 : 0 ≤ clo) (h1 : clo ≤ c) (h2 : c ≤ chi)
    (h3 : chi ≤ 1 / 2) :
    1 - chi + chi ^ 2 / 2 - 2 / 9 * chi ^ 3 ≤ Real.exp (-c) ∧
      Real.exp (-c) ≤ 1 - clo + clo ^ 2 / 2 + 2 / 9 * clo ^ 3 := by
  have hxabs : |(-c : ℝ)| ≤ 1 := by
    rw [abs_le]
    constructor <;> linarith
  have hb := Real.exp_bound hxabs (n := 3) (by norm_num)
  have hsum : (∑ m ∈ Finset.range 3, (-c) ^ m / (m.factorial : ℝ)) = 1 - c + c ^ 2 / 2 := by
    simp [Finset.sum_range_succ, Nat.factorial]
    ring
  rw [hsum] at hb
  have habs : |(-c : ℝ)| = c := by
    rw [abs_neg, abs_of_nonneg (by linarith)]
  rw [habs] at hb
  have hcoef : ((Nat.succ 3 : ℕ) : ℝ) / (((Nat.factorial 3 : ℕ) : ℝ) * ((3 : ℕ) : ℝ)) =
      2 / 9 := by
    norm_num [Nat.factorial]
  rw [abs_sub_le_iff] at hb
  obtain ⟨hb1, hb2⟩ := hb
  rw [hcoef] at hb1 hb2
  constructor
  · nlinarith [hb1, hb2, sq_nonneg (chi - c), mul_nonneg (mul_nonneg h0 h0) h0,
      mul_nonneg (sub_nonneg.mpr h2) (sub_nonneg.mpr (le_trans h0 h1))]
  · nlinarith [hb1, hb2, sq_nonneg (c - clo), mul_nonneg (mul_nonneg h0 h0) h0,
      mul_nonneg (sub_nonneg.mpr h1) h0]

/-- Tolerance bound for a value and a product, each known only through
rational interval enclosures. -/
theorem interval_bound_lemma {v s E nlo nhi slo shi elo ehi : ℝ}
    (hv1 : nlo ≤ v) (hv2 : v ≤ nhi) (hs1 : slo ≤ s) (hs2 : s ≤ shi)
    (he1 : elo ≤ E) (he2 : E ≤ ehi) (hslo : 0 ≤ slo) (helo : 0 ≤ elo)
    (hq1 : nhi ≤ slo * elo + 1 / 100) (hq2 : shi * ehi ≤ nlo + 1 / 100) :
    |v - s * E| ≤ 1 / 100 := by
  have hse1 : slo * elo ≤ s * E := mul_le_mul hs1 he1 helo (le_trans hslo hs1)
  have hse2 : s * E ≤ shi * ehi :=
    mul_le_mul hs2 he2 (le_trans helo he1) (le_trans (le_trans hslo hs1) hs2)
  rw [abs_le]
  constructor <;> linarith

end TaylorBounds

section CastLemmas

theorem getD_map_cast (u : List ℚ) (i : ℕ) :
    (u.map fun q => ((q : ℚ) : ℝ)).getD i 0 = ((u.getD i 0 : ℚ) : ℝ) := by
  have h := List.getD_map u (0 : ℚ) (fun q => ((q : ℚ) : ℝ)) (n := i)
  simpa using h

theorem stencil_map_cast (u : List ℚ) (r : ℚ) :
    (stencil u r).map (fun q => ((q : ℚ) : ℝ)) =
      stencil (u.map fun q => ((q : ℚ) : ℝ)) ((r : ℚ) : ℝ) := by
  simp only [stencil, List.map_append, List.map_take, List.map_drop, List.map_map,
    List.length_map]
  congr 1
  congr 1
  apply List.map_congr_left
  intro i _
  simp only [Function.comp_apply]
  rw [getD_map_cast, getD_map_cast, getD_map_cast]
  push_cast
  ring

theorem iterStencil_map_cast (u : List ℚ) (r : ℚ) (n : ℕ) :
    (iterStencil r n u).map (fun q => ((q : ℚ) : ℝ)) =
      iterStencil ((r : ℚ) : ℝ) n (u.map fun q => ((q : ℚ) : ℝ)) := by
  induction n generalizing u with
  | zero => rfl
  | succ n ih => rw [iterStencil, iterStencil, ih, stencil_map_cast]

end CastLemmas

section SinEnclosures

/-- Rational lower bounds for the sine samples `sin (π k / 19)`,
`k = 0, ..., 19` (the boundary entries are the exact value `0`). -/
def sLo : List ℚ :=
  [0, 164590 / 1000000, 324695 / 1000000, 475942 / 1000000, 614208 / 1000000, 735718 / 1000000, 837159 / 1000000, 915769 / 1000000, 969395 / 1000000, 996580 / 1000000, 996580 / 1000000, 969395 / 1000000, 915769 / 1000000, 837159 / 1000000, 735718 / 1000000, 614208 / 1000000, 475942 / 1000000, 324695 / 1000000, 164590 / 1000000, 0]

/-- Rational upper bounds for the same sine samples. -/
def sHi : List ℚ :=
  [0, 164599 / 1000000, 324704 / 1000000, 475952 / 1000000, 614217 / 1000000, 735728 / 1000000, 837169 / 1000000, 915778 / 1000000, 969405 / 1000000, 996589 / 1000000, 996589 / 1000000, 969405 / 1000000, 915778 / 1000000, 837169 / 1000000, 735728 / 1000000, 614217 / 1000000, 475952 / 1000000, 324704 / 1000000, 164599 / 1000000, 0]

theorem sinb1 :
    ((164590 / 1000000 : ℚ) : ℝ) ≤ Real.sin (Real.pi * ((1 : ℕ) : ℝ) / 19) ∧
      Real.sin (Real.pi * ((1 : ℕ) : ℝ) / 19) ≤ ((164599 / 1000000 : ℚ) : ℝ) := by
  have h := sin_enclosure (x := Real.pi * ((1 : ℕ) : ℝ) / 19) (q := 3141592 / 19000000)
    (by
      rw [abs_le]
      have h1 := Real.pi_gt_d6
      have h2 := Real.pi_lt_d6
      push_cast
      constructor <;> nlinarith)
    (by rw [abs_le]; norm_num)
    (le_refl _) (le_refl _)
  constructor
  · refine le_trans ?_ h.1
    push_cast
    norm_num
  · refine le_trans h.2 ?_
    push_cast
    norm_num
theorem sinb2 :
    ((324695 / 1000000 : ℚ) : ℝ) ≤ Real.sin (Real.pi * ((2 : ℕ) : ℝ) / 19) ∧
      Real.sin (Real.pi * ((2 : ℕ) : ℝ) / 19) ≤ ((324704 / 1000000 : ℚ) : ℝ) := by
  have h := sin_enclosure (x := Real.pi * ((2 : ℕ) : ℝ) / 19) (q := 6283184 / 19000000)
    (by
      rw [abs_le]
      have h1 := Real.pi_gt_d6
      have h2 := Real.pi_lt_d6
      push_cast
      constructor <;> nlinarith)
    (by rw [abs_le]; norm_num)
    (le_refl _) (le_refl _)
  constructor
  · refine le_trans ?_ h.1
    push_cast
    norm_num
  · refine le_trans h.2 ?_
    push_cast
    norm_num
theorem sinb3 :
    ((475942 / 1000000 : ℚ) : ℝ) ≤ Real.sin (Real.pi * ((3 : ℕ) : ℝ) / 19) ∧
      Real.sin (Real.pi * ((3 : ℕ) : ℝ) / 19) ≤ ((475952 / 1000000 : ℚ) : ℝ) := by
  have h := sin_enclosure (x := Real.pi * ((3 : ℕ) : ℝ) / 19) (q := 9424776 / 19000000)
    (by
      rw [abs_le]
      have h1 := Real.pi_gt_d6
      have h2 := Real.pi_lt_d6
      push_cast
      constructor <;> nlinarith)
    (by rw [abs_le]; norm_num)
    (le_refl _) (le_refl _)
  constructor
  · refine le_trans ?_ h.1
    push_cast
    norm_num
  · refine le_trans h.2 ?_
    push_cast
    norm_num
theorem sinb4 :
    ((614208 / 1000000 : ℚ) : ℝ) ≤ Real.sin (Real.pi * ((4 : ℕ) : ℝ) / 19) ∧
      Real.sin (Real.pi * ((4 : ℕ) : ℝ) / 19) ≤ ((614217 / 1000000 : ℚ) : ℝ) := by
  have h := sin_enclosure (x := Real.pi * ((4 : ℕ) : ℝ) / 19) (q := 12566368 / 19000000)
    (by
      rw [abs_le]
      have h1 := Real.pi_gt_d6
      have h2 := Real.pi_lt_d6
      push_cast
      constructor <;> nlinarith)
    (by rw [abs_le]; norm_num)
    (le_refl _) (le_refl _)
  constructor
  · refine le_trans ?_ h.1
    push_cast
    norm_num
  · refine le_trans h.2 ?_
    push_cast
    norm_num
theorem sinb5 :
    ((735718 / 1000000 : ℚ) : ℝ) ≤ Real.sin (Real.pi * ((5 : ℕ) : ℝ) / 19) ∧
      Real.sin (Real.pi * ((5 : ℕ) : ℝ) / 19) ≤ ((735728 / 1000000 : ℚ) : ℝ) := by
  have h := sin_enclosure (x := Real.pi * ((5 : ℕ) : ℝ) / 19) (q := 15707960 / 19000000)
    (by
      rw [abs_le]
      have h1 := Real.pi_gt_d6
      have h2 := Real.pi_lt_d6
      push_cast
      constructor <;> nlinarith)
    (by rw [abs_le]; norm_num)
    (le_refl _) (le_refl _)
  constructor
  · refine le_trans ?_ h.1
    push_cast
    norm_num
  · refine le_trans h.2 ?_
    push_cast
    norm_num
theorem sinb6 :
    ((837159 / 1000000 : ℚ) : ℝ) ≤ Real.sin (Real.pi * ((6 : ℕ) : ℝ) / 19) ∧
      Real.sin (Real.pi * ((6 : ℕ) : ℝ) / 19) ≤ ((837169 / 1000000 : ℚ) : ℝ) := by
  have h := sin_enclosure (x := Real.pi * ((6 : ℕ) : ℝ) / 19) (q := 18849552 / 19000000)
    (by
      rw [abs_le]
      have h1 := Real.pi_gt_d6
      have h2 := Real.pi_lt_d6
      push_cast
      constructor <;> nlinarith)
    (by rw [abs_le]; norm_num)
    (le_refl _) (le_refl _)
  constructor
  · refine le_trans ?_ h.1
    push_cast
    norm_num
  · refine le_trans h.2 ?_
    push_cast
    norm_num
theorem sinb7 :
    ((915769 / 1000000 : ℚ) : ℝ) ≤ Real.sin (Real.pi * ((7 : ℕ) : ℝ) / 19) ∧
      Real.sin (Real.pi * ((7 : ℕ) : ℝ) / 19) ≤ ((915778 / 1000000 : ℚ) : ℝ) := by
  have hid : Real.sin (Real.pi * ((7 : ℕ) : ℝ) / 19) = Real.cos (Real.pi * 5 / 38) := by
    rw [← Real.cos_pi_div_two_sub]
    congr 1
    push_cast
    ring
  rw [hid]
  have h := cos_enclosure (x := Real.pi * 5 / 38) (q := 15707960 / 38000000)
    (by
      rw [abs_le]
      have h1 := Real.pi_gt_d6
      have h2 := Real.pi_lt_d6
      constructor <;> nlinarith)
    (by rw [abs_le]; norm_num)
    (le_refl _) (le_refl _)
  constructor
  · refine le_trans ?_ h.1
    push_cast
    norm_num
  · refine le_trans h.2 ?_
    push_cast
    norm_num
theorem sinb8 :
    ((969395 / 1000000 : ℚ) : ℝ) ≤ Real.sin (Real.pi * ((8 : ℕ) : ℝ) / 19) ∧
      Real.sin (Real.pi * ((8 : ℕ) : ℝ) / 19) ≤ ((969405 / 1000000 : ℚ) : ℝ) := by
  have hid : Real.sin (Real.pi * ((8 : ℕ) : ℝ) / 19) = Real.cos (Real.pi * 3 / 38) := by
    rw [← Real.cos_pi_div_two_sub]
    congr 1
    push_cast
    ring
  rw [hid]
  have h := cos_enclosure (x := Real.pi * 3 / 38) (q := 9424776 / 38000000)
    (by
      rw [abs_le]
      have h1 := Real.pi_gt_d6
      have h2 := Real.pi_lt_d6
      constructor <;> nlinarith)
    (by rw [abs_le]; norm_num)
    (le_refl _) (le_refl _)
  constructor
  · refine le_trans ?_ h.1
    push_cast
    norm_num
  · refine le_trans h.2 ?_
    push_cast
    norm_num
theorem sinb9 :
    ((996580 / 1000000 : ℚ) : ℝ) ≤ Real.sin (Real.pi * ((9 : ℕ) : ℝ) / 19) ∧
      Real.sin (Real.pi * ((9 : ℕ) : ℝ) / 19) ≤ ((996589 / 1000000 : ℚ) : ℝ) := by
  have hid : Real.sin (Real.pi * ((9 : ℕ) : ℝ) / 19) = Real.cos (Real.pi * 1 / 38) := by
    rw [← Real.cos_pi_div_two_sub]
    congr 1
    push_cast
    ring
  rw [hid]
  have h := cos_enclosure (x := Real.pi * 1 / 38) (q := 3141592 / 38000000)
    (by
      rw [abs_le]
      have h1 := Real.pi_gt_d6
      have h2 := Real.pi_lt_d6
      constructor <;> nlinarith)
    (by rw [abs_le]; norm_num)
    (le_refl _) (le_refl _)
  constructor
  · refine le_trans ?_ h.1
    push_cast
    norm_num
  · refine le_trans h.2 ?_
    push_cast
    norm_num
theorem sinb10 :
    ((996580 / 1000000 : ℚ) : ℝ) ≤ Real.sin (Real.pi * ((10 : ℕ) : ℝ) / 19) ∧
      Real.sin (Real.pi * ((10 : ℕ) : ℝ) / 19) ≤ ((996589 / 1000000 : ℚ) : ℝ) := by
  have hid : Real.sin (Real.pi * ((10 : ℕ) : ℝ) / 19) =
      Real.sin (Real.pi * ((9 : ℕ) : ℝ) / 19) := by
    rw [← Real.sin_pi_sub]
    congr 1
    push_cast
    ring
  rw [hid]
  exact sinb9
theorem sinb11 :
    ((969395 / 1000000 : ℚ) : ℝ) ≤ Real.sin (Real.pi * ((11 : ℕ) : ℝ) / 19) ∧
      Real.sin (Real.pi * ((11 : ℕ) : ℝ) / 19) ≤ ((969405 / 1000000 : ℚ) : ℝ) := by
  have hid : Real.sin (Real.pi * ((11 : ℕ) : ℝ) / 19) =
      Real.sin (Real.pi * ((8 : ℕ) : ℝ) / 19) := by
    rw [← Real.sin_pi_sub]
    congr 1
    push_cast
    ring
  rw [hid]
  exact sinb8
theorem sinb12 :
    ((915769 / 1000000 : ℚ) : ℝ) ≤ Real.sin (Real.pi * ((12 : ℕ) : ℝ) / 19) ∧
      Real.sin (Real.pi * ((12 : ℕ) : ℝ) / 19) ≤ ((915778 / 1000000 : ℚ) : ℝ) := by
  have hid : Real.sin (Real.pi * ((12 : ℕ) : ℝ) / 19) =
      Real.sin (Real.pi * ((7 : ℕ) : ℝ) / 19) := by
    rw [← Real.sin_pi_sub]
    congr 1
    push_cast
    ring
  rw [hid]
  exact sinb7
theorem sinb13 :
    ((837159 / 1000000 : ℚ) : ℝ) ≤ Real.sin (Real.pi * ((13 : ℕ) : ℝ) / 19) ∧
      Real.sin (Real.pi * ((13 : ℕ) : ℝ) / 19) ≤ ((837169 / 1000000 : ℚ) : ℝ) := by
  have hid : Real.sin (Real.pi * ((13 : ℕ) : ℝ) / 19) =
      Real.sin (Real.pi * ((6 : ℕ) : ℝ) / 19) := by
    rw [← Real.sin_pi_sub]
    congr 1
    push_cast
    ring
  rw [hid]
  exact sinb6
theorem sinb14 :
    ((735718 / 1000000 : ℚ) : ℝ) ≤ Real.sin (Real.pi * ((14 : ℕ) : ℝ) / 19) ∧
      Real.sin (Real.pi * ((14 : ℕ) : ℝ) / 19) ≤ ((735728 / 1000000 : ℚ) : ℝ) := by
  have hid : Real.sin (Real.pi * ((14 : ℕ) : ℝ) / 19) =
      Real.sin (Real.pi * ((5 : ℕ) : ℝ) / 19) := by
    rw [← Real.sin_pi_sub]
    congr 1
    push_cast
    ring
  rw [hid]
  exact sinb5
theorem sinb15 :
    ((614208 / 1000000 : ℚ) : ℝ) ≤ Real.sin (Real.pi * ((15 : ℕ) : ℝ) / 19) ∧
      Real.sin (Real.pi * ((15 : ℕ) : ℝ) / 19) ≤ ((614217 / 1000000 : ℚ) : ℝ) := by
  have hid : Real.sin (Real.pi * ((15 : ℕ) : ℝ) / 19) =
      Real.sin (Real.pi * ((4 : ℕ) : ℝ) / 19) := by
    rw [← Real.sin_pi_sub]
    congr 1
    push_cast
    ring
  rw [hid]
  exact sinb4
theorem sinb16 :
    ((475942 / 1000000 : ℚ) : ℝ) ≤ Real.sin (Real.pi * ((16 : ℕ) : ℝ) / 19) ∧
      Real.sin (Real.pi * ((16 : ℕ) : ℝ) / 19) ≤ ((475952 / 1000000 : ℚ) : ℝ) := by
  have hid : Real.sin (Real.pi * ((16 : ℕ) : ℝ) / 19) =
      Real.sin (Real.pi * ((3 : ℕ) : ℝ) / 19) := by
    rw [← Real.sin_pi_sub]
    congr 1
    push_cast
    ring
  rw [hid]
  exact sinb3
theorem sinb17 :
    ((324695 / 1000000 : ℚ) : ℝ) ≤ Real.sin (Real.pi * ((17 : ℕ) : ℝ) / 19) ∧
      Real.sin (Real.pi * ((17 : ℕ) : ℝ) / 19) ≤ ((324704 / 1000000 : ℚ) : ℝ) := by
  have hid : Real.sin (Real.pi * ((17 : ℕ) : ℝ) / 19) =
      Real.sin (Real.pi * ((2 : ℕ) : ℝ) / 19) := by
    rw [← Real.sin_pi_sub]
    congr 1
    push_cast
    ring
  rw [hid]
  exact sinb2
theorem sinb18 :
    ((164590 / 1000000 : ℚ) : ℝ) ≤ Real.sin (Real.pi * ((18 : ℕ) : ℝ) / 19) ∧
      Real.sin (Real.pi * ((18 : ℕ) : ℝ) / 19) ≤ ((164599 / 1000000 : ℚ) : ℝ) := by
  have hid : Real.sin (Real.pi * ((18 : ℕ) : ℝ) / 19) =
      Real.sin (Real.pi * ((1 : ℕ) : ℝ) / 19) := by
    rw [← Real.sin_pi_sub]
    congr 1
    push_cast
    ring
  rw [hid]
  exact sinb1
/-- The lower-bound list is below the exact sine profile, entrywise. -/
theorem sLo_le_sinList :
    List.Forall₂ (· ≤ ·) (sLo.map fun q => ((q : ℚ) : ℝ))
      ([0] ++ ((List.range' 1 18).map fun k => Real.sin (Real.pi * (k : ℝ) / 19)) ++ [0]) := by
  rw [show List.range' 1 18 = [1, 2, 3, 4, 5, 6, 7, 8, 9, 10, 11, 12, 13, 14, 15, 16, 17, 18] from rfl]
  simp only [sLo, List.map_cons, List.map_nil, List.cons_append, List.nil_append]
  refine List.Forall₂.cons (by norm_num) ?_
  refine List.Forall₂.cons sinb1.1 ?_
  refine List.Forall₂.cons sinb2.1 ?_
  refine List.Forall₂.cons sinb3.1 ?_
  refine List.Forall₂.cons sinb4.1 ?_
  refine List.Forall₂.cons sinb5.1 ?_
  refine List.Forall₂.cons sinb6.1 ?_
  refine List.Forall₂.cons sinb7.1 ?_
  refine List.Forall₂.cons sinb8.1 ?_
  refine List.Forall₂.cons sinb9.1 ?_
  refine List.Forall₂.cons sinb10.1 ?_
  refine List.Forall₂.cons sinb11.1 ?_
  refine List.Forall₂.cons sinb12.1 ?_
  refine List.Forall₂.cons sinb13.1 ?_
  refine List.Forall₂.cons sinb14.1 ?_
  refine List.Forall₂.cons sinb15.1 ?_
  refine List.Forall₂.cons sinb16.1 ?_
  refine List.Forall₂.cons sinb17.1 ?_
  refine List.Forall₂.cons sinb18.1 ?_
  exact List.Forall₂.cons (by norm_num) List.Forall₂.nil

/-- The exact sine profile is below the upper-bound list, entrywise. -/
theorem sinList_le_sHi :
    List.Forall₂ (· ≤ ·)
      ([0] ++ ((List.range' 1 18).map fun k => Real.sin (Real.pi * (k : ℝ) / 19)) ++ [0])
      (sHi.map fun q => ((q : ℚ) : ℝ)) := by
  rw [show List.range' 1 18 = [1, 2, 3, 4, 5, 6, 7, 8, 9, 10, 11, 12, 13, 14, 15, 16, 17, 18] from rfl]
  simp only [sHi, List.map_cons, List.map_nil, List.cons_append, List.nil_append]
  refine List.Forall₂.cons (by norm_num) ?_
  refine List.Forall₂.cons sinb1.2 ?_
  refine List.Forall₂.cons sinb2.2 ?_
  refine List.Forall₂.cons sinb3.2 ?_
  refine List.Forall₂.cons sinb4.2 ?_
  refine List.Forall₂.cons sinb5.2 ?_
  refine List.Forall₂.cons sinb6.2 ?_
  refine List.Forall₂.cons sinb7.2 ?_
  refine List.Forall₂.cons sinb8.2 ?_
  refine List.Forall₂.cons sinb9.2 ?_
  refine List.Forall₂.cons sinb10.2 ?_
  refine List.Forall₂.cons sinb11.2 ?_
  refine List.Forall₂.cons sinb12.2 ?_
  refine List.Forall₂.cons sinb13.2 ?_
  refine List.Forall₂.cons sinb14.2 ?_
  refine List.Forall₂.cons sinb15.2 ?_
  refine List.Forall₂.cons sinb16.2 ?_
  refine List.Forall₂.cons sinb17.2 ?_
  refine List.Forall₂.cons sinb18.2 ?_
  exact List.Forall₂.cons (by norm_num) List.Forall₂.nil

end SinEnclosures

section ExpEnclosures

theorem expb1 :
    ((9518428 / 10000000 : ℚ) : ℝ) ≤ Real.exp (-(Real.pi ^ 2 / 200)) ∧
      Real.exp (-(Real.pi ^ 2 / 200)) ≤ ((9518964 / 10000000 : ℚ) : ℝ) := by
  have h := exp_neg_bounds (Real.pi ^ 2 / 200)
    ((3141592 / 1000000 : ℝ) ^ 2 / 200) ((3141593 / 1000000 : ℝ) ^ 2 / 200)
    (by positivity) (by nlinarith [Real.pi_gt_d6, Real.pi_pos])
    (by nlinarith [Real.pi_lt_d6, Real.pi_pos]) (by norm_num)
  constructor
  · refine le_trans ?_ h.1
    push_cast
    norm_num
  · refine le_trans h.2 ?_
    push_cast
    norm_num
theorem expb2 :
    ((9877386 / 10000000 : ℚ) : ℝ) ≤ Real.exp (-(Real.pi ^ 2 / 800)) ∧
      Real.exp (-(Real.pi ^ 2 / 800)) ≤ ((9877396 / 10000000 : ℚ) : ℝ) := by
  have h := exp_neg_bounds (Real.pi ^ 2 / 800)
    ((3141592 / 1000000 : ℝ) ^ 2 / 800) ((3141593 / 1000000 : ℝ) ^ 2 / 800)
    (by positivity) (by nlinarith [Real.pi_gt_d6, Real.pi_pos])
    (by nlinarith [Real.pi_lt_d6, Real.pi_pos]) (by norm_num)
  constructor
  · refine le_trans ?_ h.1
    push_cast
    norm_num
  · refine le_trans h.2 ?_
    push_cast
    norm_num
theorem expb3 :
    ((9059607 / 10000000 : ℚ) : ℝ) ≤ Real.exp (-(Real.pi ^ 2 / 100)) ∧
      Real.exp (-(Real.pi ^ 2 / 100)) ≤ ((9063881 / 10000000 : ℚ) : ℝ) := by
  have h := exp_neg_bounds (Real.pi ^ 2 / 100)
    ((3141592 / 1000000 : ℝ) ^ 2 / 100) ((3141593 / 1000000 : ℝ) ^ 2 / 100)
    (by positivity) (by nlinarith [Real.pi_gt_d6, Real.pi_pos])
    (by nlinarith [Real.pi_lt_d6, Real.pi_pos]) (by norm_num)
  constructor
  · refine le_trans ?_ h.1
    push_cast
    norm_num
  · refine le_trans h.2 ?_
    push_cast
    norm_num

end ExpEnclosures

section RationalChecks

set_option maxRecDepth 8000 in
/-- Exact rational check: nine stencil iterations on the enclosure lists
stay within tolerance of the enclosed analytic values (parameter set 1). -/
theorem qcheck1 : ∀ k : ℕ, k ∈ List.range' 1 18 →
    (iterStencil (361 / 1800 : ℚ) 9 sHi).getD k 0 ≤
      sLo.getD k 0 * (9518428 / 10000000) + 1 / 100 ∧
    sHi.getD k 0 * (9518964 / 10000000) ≤
      (iterStencil (361 / 1800 : ℚ) 9 sLo).getD k 0 + 1 / 100 := by
  have hall : ((List.range' 1 18).all fun k =>
      decide ((iterStencil (361 / 1800 : ℚ) 9 sHi).getD k 0 ≤
        sLo.getD k 0 * (9518428 / 10000000) + 1 / 100) &&
      decide (sHi.getD k 0 * (9518964 / 10000000) ≤
        (iterStencil (361 / 1800 : ℚ) 9 sLo).getD k 0 + 1 / 100)) = true := by
    with_unfolding_all decide
  intro k hk
  have h := List.all_eq_true.mp hall k hk
  rw [Bool.and_eq_true] at h
  exact ⟨of_decide_eq_true h.1, of_decide_eq_true h.2⟩
set_option maxRecDepth 8000 in
/-- Exact rational check: nine stencil iterations on the enclosure lists
stay within tolerance of the enclosed analytic values (parameter set 2). -/
theorem qcheck2 : ∀ k : ℕ, k ∈ List.range' 1 18 →
    (iterStencil (361 / 7200 : ℚ) 9 sHi).getD k 0 ≤
      sLo.getD k 0 * (9877386 / 10000000) + 1 / 100 ∧
    sHi.getD k 0 * (9877396 / 10000000) ≤
      (iterStencil (361 / 7200 : ℚ) 9 sLo).getD k 0 + 1 / 100 := by
  have hall : ((List.range' 1 18).all fun k =>
      decide ((iterStencil (361 / 7200 : ℚ) 9 sHi).getD k 0 ≤
        sLo.getD k 0 * (9877386 / 10000000) + 1 / 100) &&
      decide (sHi.getD k 0 * (9877396 / 10000000) ≤
        (iterStencil (361 / 7200 : ℚ) 9 sLo).getD k 0 + 1 / 100)) = true := by
    with_unfolding_all decide
  intro k hk
  have h := List.all_eq_true.mp hall k hk
  rw [Bool.and_eq_true] at h
  exact ⟨of_decide_eq_true h.1, of_decide_eq_true h.2⟩
set_option maxRecDepth 8000 in
/-- Exact rational check: nine stencil iterations on the enclosure lists
stay within tolerance of the enclosed analytic values (parameter set 3). -/
theorem qcheck3 : ∀ k : ℕ, k ∈ List.range' 1 18 →
    (iterStencil (361 / 900 : ℚ) 9 sHi).getD k 0 ≤
      sLo.getD k 0 * (9059607 / 10000000) + 1 / 100 ∧
    sHi.getD k 0 * (9063881 / 10000000) ≤
      (iterStencil (361 / 900 : ℚ) 9 sLo).getD k 0 + 1 / 100 := by
  have hall : ((List.range' 1 18).all fun k =>
      decide ((iterStencil (361 / 900 : ℚ) 9 sHi).getD k 0 ≤
        sLo.getD k 0 * (9059607 / 10000000) + 1 / 100) &&
      decide (sHi.getD k 0 * (9063881 / 10000000) ≤
        (iterStencil (361 / 900 : ℚ) 9 sLo).getD k 0 + 1 / 100)) = true := by
    with_unfolding_all decide
  intro k hk
  have h := List.all_eq_true.mp hall k hk
  rw [Bool.and_eq_true] at h
  exact ⟨of_decide_eq_true h.1, of_decide_eq_true h.2⟩

end RationalChecks

/-- C8: for the initial profile sampling sin of pi x over L at 20 evenly
spaced grid points with zero boundary values, nt = 10, alpha = 1/100, and
each pair (L, tmax) among (1, 1/2), (2, 1/2), (1, 1), `heat` succeeds and
every interior entry of its output is within absolute tolerance 1/100 of
the analytic solution value at the matching grid point. -/
theorem C8_convergence :
    ∀ L tmax : ℝ,
      (L = 1 ∧ tmax = 1 / 2) ∨ (L = 2 ∧ tmax = 1 / 2) ∨ (L = 1 ∧ tmax = 1) →
      okBool (heat
        ([0] ++ ((List.range' 1 18).map fun k =>
          Real.sin (Real.pi * ((k : ℝ) * L / 19) / L)) ++ [0])
        10 20 (1 / 100) L tmax) = true ∧
      ∀ v, heat
          ([0] ++ ((List.range' 1 18).map fun k =>
            Real.sin (Real.pi * ((k : ℝ) * L / 19) / L)) ++ [0])
          10 20 (1 / 100) L tmax = Except.ok v →
        ∀ k : ℕ, 1 ≤ k → k ≤ 18 →
          |v.getD k 0 - Real.sin (Real.pi * ((k : ℝ) * L / 19) / L) *
            Real.exp (-(tmax * (1 / 100) * (Real.pi / L) ^ 2))| ≤ 1 / 100 := by
  intro L tmax hcase
  rcases hcase with ⟨rfl, rfl⟩ | ⟨rfl, rfl⟩ | ⟨rfl, rfl⟩
  · have hlist : ((List.range' 1 18).map fun k =>
        Real.sin (Real.pi * ((k : ℝ) * 1 / 19) / 1)) =
        ((List.range' 1 18).map fun k => Real.sin (Real.pi * (k : ℝ) / 19)) :=
      List.map_congr_left fun j _ => congrArg Real.sin (by push_cast; ring)
    rw [hlist, heat_eq_iter _ 10 20 _ _ _ (by norm_num) (by norm_num),
      show ((10 : ℤ) - 1).toNat = 9 from rfl,
      iterExcept_of_stable 9 _ (show 1 / 100 * (1 / 2 / (((10 : ℤ) : ℝ) - 1)) / (1 / (((20 : ℤ) : ℝ) - 1)) ^ 2 ≤ 1 / 2 by push_cast; norm_num)]
    refine ⟨rfl, ?_⟩
    intro v hv
    obtain rfl := Except.ok.inj hv
    rw [show 1 / 100 * (1 / 2 / (((10 : ℤ) : ℝ) - 1)) / (1 / (((20 : ℤ) : ℝ) - 1)) ^ 2 = ((361 / 1800 : ℚ) : ℝ) from by push_cast; norm_num,
      show (-(1 / 2 * (1 / 100) * (Real.pi / 1) ^ 2) : ℝ) =
        -(Real.pi ^ 2 / 200) from by ring]
    have hlow : List.Forall₂ (· ≤ ·)
        ((iterStencil (361 / 1800 : ℚ) 9 sLo).map fun q => ((q : ℚ) : ℝ))
        (iterStencil ((361 / 1800 : ℚ) : ℝ) 9
          ([0] ++ ((List.range' 1 18).map fun k =>
          Real.sin (Real.pi * (k : ℝ) / 19)) ++ [0])) := by
      rw [iterStencil_map_cast]
      exact iterStencil_mono (by push_cast; norm_num) (by push_cast; norm_num)
        sLo_le_sinList 9
    have hhigh : List.Forall₂ (· ≤ ·)
        (iterStencil ((361 / 1800 : ℚ) : ℝ) 9
          ([0] ++ ((List.range' 1 18).map fun k =>
          Real.sin (Real.pi * (k : ℝ) / 19)) ++ [0]))
        ((iterStencil (361 / 1800 : ℚ) 9 sHi).map fun q => ((q : ℚ) : ℝ)) := by
      rw [iterStencil_map_cast]
      exact iterStencil_mono (by push_cast; norm_num) (by push_cast; norm_num)
        sinList_le_sHi 9
    have hlowD := forall₂_getD_le hlow
    have hhighD := forall₂_getD_le hhigh
    intro k hk1 hk2
    interval_cases k
    · rw [show Real.pi * (((1 : ℕ) : ℝ) * 1 / 19) / 1 =
          Real.pi * ((1 : ℕ) : ℝ) / 19 from by push_cast; ring]
      have hl := hlowD 1
      rw [getD_map_cast] at hl
      have hh := hhighD 1
      rw [getD_map_cast] at hh
      have hq := qcheck1 1 (by decide)
      rw [show sLo.getD 1 0 = (164590 / 1000000 : ℚ) from rfl,
        show sHi.getD 1 0 = (164599 / 1000000 : ℚ) from rfl] at hq
      have hc1 := (Rat.cast_le (K := ℝ)).mpr hq.1
      have hc2 := (Rat.cast_le (K := ℝ)).mpr hq.2
      rw [Rat.cast_add, Rat.cast_mul,
        show ((1 / 100 : ℚ) : ℝ) = 1 / 100 from by norm_num] at hc1 hc2
      exact interval_bound_lemma hl hh sinb1.1 sinb1.2 expb1.1 expb1.2
        (by push_cast; norm_num) (by push_cast; norm_num)
        hc1 hc2
    · rw [show Real.pi * (((2 : ℕ) : ℝ) * 1 / 19) / 1 =
          Real.pi * ((2 : ℕ) : ℝ) / 19 from by push_cast; ring]
      have hl := hlowD 2
      rw [getD_map_cast] at hl
      have hh := hhighD 2
      rw [getD_map_cast] at hh
      have hq := qcheck1 2 (by decide)
      rw [show sLo.getD 2 0 = (324695 / 1000000 : ℚ) from rfl,
        show sHi.getD 2 0 = (324704 / 1000000 : ℚ) from rfl] at hq
      have hc1 := (Rat.cast_le (K := ℝ)).mpr hq.1
      have hc2 := (Rat.cast_le (K := ℝ)).mpr hq.2
      rw [Rat.cast_add, Rat.cast_mul,
        show ((1 / 100 : ℚ) : ℝ) = 1 / 100 from by norm_num] at hc1 hc2
      exact interval_bound_lemma hl hh sinb2.1 sinb2.2 expb1.1 expb1.2
        (by push_cast; norm_num) (by push_cast; norm_num)
        hc1 hc2
    · rw [show Real.pi * (((3 : ℕ) : ℝ) * 1 / 19) / 1 =
          Real.pi * ((3 : ℕ) : ℝ) / 19 from by push_cast; ring]
      have hl := hlowD 3
      rw [getD_map_cast] at hl
      have hh := hhighD 3
      rw [getD_map_cast] at hh
      have hq := qcheck1 3 (by decide)
      rw [show sLo.getD 3 0 = (475942 / 1000000 : ℚ) from rfl,
        show sHi.getD 3 0 = (475952 / 1000000 : ℚ) from rfl] at hq
      have hc1 := (Rat.cast_le (K := ℝ)).mpr hq.1
      have hc2 := (Rat.cast_le (K := ℝ)).mpr hq.2
      rw [Rat.cast_add, Rat.cast_mul,
        show ((1 / 100 : ℚ) : ℝ) = 1 / 100 from by norm_num] at hc1 hc2
      exact interval_bound_lemma hl hh sinb3.1 sinb3.2 expb1.1 expb1.2
        (by push_cast; norm_num) (by push_cast; norm_num)
        hc1 hc2
    · rw [show Real.pi * (((4 : ℕ) : ℝ) * 1 / 19) / 1 =
          Real.pi * ((4 : ℕ) : ℝ) / 19 from by push_cast; ring]
      have hl := hlowD 4
      rw [getD_map_cast] at hl
      have hh := hhighD 4
      rw [getD_map_cast] at hh
      have hq := qcheck1 4 (by decide)
      rw [show sLo.getD 4 0 = (614208 / 1000000 : ℚ) from rfl,
        show sHi.getD 4 0 = (614217 / 1000000 : ℚ) from rfl] at hq
      have hc1 := (Rat.cast_le (K := ℝ)).mpr hq.1
      have hc2 := (Rat.cast_le (K := ℝ)).mpr hq.2
      rw [Rat.cast_add, Rat.cast_mul,
        show ((1 / 100 : ℚ) : ℝ) = 1 / 100 from by norm_num] at hc1 hc2
      exact interval_bound_lemma hl hh sinb4.1 sinb4.2 expb1.1 expb1.2
        (by push_cast; norm_num) (by push_cast; norm_num)
        hc1 hc2
    · rw [show Real.pi * (((5 : ℕ) : ℝ) * 1 / 19) / 1 =
          Real.pi * ((5 : ℕ) : ℝ) / 19 from by push_cast; ring]
      have hl := hlowD 5
      rw [getD_map_cast] at hl
      have hh := hhighD 5
      rw [getD_map_cast] at hh
      have hq := qcheck1 5 (by decide)
      rw [show sLo.getD 5 0 = (735718 / 1000000 : ℚ) from rfl,
        show sHi.getD 5 0 = (735728 / 1000000 : ℚ) from rfl] at hq
      have hc1 := (Rat.cast_le (K := ℝ)).mpr hq.1
      have hc2 := (Rat.cast_le (K := ℝ)).mpr hq.2
      rw [Rat.cast_add, Rat.cast_mul,
        show ((1 / 100 : ℚ) : ℝ) = 1 / 100 from by norm_num] at hc1 hc2
      exact interval_bound_lemma hl hh sinb5.1 sinb5.2 expb1.1 expb1.2
        (by push_cast; norm_num) (by push_cast; norm_num)
        hc1 hc2
    · rw [show Real.pi * (((6 : ℕ) : ℝ) * 1 / 19) / 1 =
          Real.pi * ((6 : ℕ) : ℝ) / 19 from by push_cast; ring]
      have hl := hlowD 6
      rw [getD_map_cast] at hl
      have hh := hhighD 6
      rw [getD_map_cast] at hh
      have hq := qcheck1 6 (by decide)
      rw [show sLo.getD 6 0 = (837159 / 1000000 : ℚ) from rfl,
        show sHi.getD 6 0 = (837169 / 1000000 : ℚ) from rfl] at hq
      have hc1 := (Rat.cast_le (K := ℝ)).mpr hq.1
      have hc2 := (Rat.cast_le (K := ℝ)).mpr hq.2
      rw [Rat.cast_add, Rat.cast_mul,
        show ((1 / 100 : ℚ) : ℝ) = 1 / 100 from by norm_num] at hc1 hc2
      exact interval_bound_lemma hl hh sinb6.1 sinb6.2 expb1.1 expb1.2
        (by push_cast; norm_num) (by push_cast; norm_num)
        hc1 hc2
    · rw [show Real.pi * (((7 : ℕ) : ℝ) * 1 / 19) / 1 =
          Real.pi * ((7 : ℕ) : ℝ) / 19 from by push_cast; ring]
      have hl := hlowD 7
      rw [getD_map_cast] at hl
      have hh := hhighD 7
      rw [getD_map_cast] at hh
      have hq := qcheck1 7 (by decide)
      rw [show sLo.getD 7 0 = (915769 / 1000000 : ℚ) from rfl,
        show sHi.getD 7 0 = (915778 / 1000000 : ℚ) from rfl] at hq
      have hc1 := (Rat.cast_le (K := ℝ)).mpr hq.1
      have hc2 := (Rat.cast_le (K := ℝ)).mpr hq.2
      rw [Rat.cast_add, Rat.cast_mul,
        show ((1 / 100 : ℚ) : ℝ) = 1 / 100 from by norm_num] at hc1 hc2
      exact interval_bound_lemma hl hh sinb7.1 sinb7.2 expb1.1 expb1.2
        (by push_cast; norm_num) (by push_cast; norm_num)
        hc1 hc2
    · rw [show Real.pi * (((8 : ℕ) : ℝ) * 1 / 19) / 1 =
          Real.pi * ((8 : ℕ) : ℝ) / 19 from by push_cast; ring]
      have hl := hlowD 8
      rw [getD_map_cast] at hl
      have hh := hhighD 8
      rw [getD_map_cast] at hh
      have hq := qcheck1 8 (by decide)
      rw [show sLo.getD 8 0 = (969395 / 1000000 : ℚ) from rfl,
        show sHi.getD 8 0 = (969405 / 1000000 : ℚ) from rfl] at hq
      have hc1 := (Rat.cast_le (K := ℝ)).mpr hq.1
      have hc2 := (Rat.cast_le (K := ℝ)).mpr hq.2
      rw [Rat.cast_add, Rat.cast_mul,
        show ((1 / 100 : ℚ) : ℝ) = 1 / 100 from by norm_num] at hc1 hc2
      exact interval_bound_lemma hl hh sinb8.1 sinb8.2 expb1.1 expb1.2
        (by push_cast; norm_num) (by push_cast; norm_num)
        hc1 hc2
    · rw [show Real.pi * (((9 : ℕ) : ℝ) * 1 / 19) / 1 =
          Real.pi * ((9 : ℕ) : ℝ) / 19 from by push_cast; ring]
      have hl := hlowD 9
      rw [getD_map_cast] at hl
      have hh := hhighD 9
      rw [getD_map_cast] at hh
      have hq := qcheck1 9 (by decide)
      rw [show sLo.getD 9 0 = (996580 / 1000000 : ℚ) from rfl,
        show sHi.getD 9 0 = (996589 / 1000000 : ℚ) from rfl] at hq
      have hc1 := (Rat.cast_le (K := ℝ)).mpr hq.1
      have hc2 := (Rat.cast_le (K := ℝ)).mpr hq.2
      rw [Rat.cast_add, Rat.cast_mul,
        show ((1 / 100 : ℚ) : ℝ) = 1 / 100 from by norm_num] at hc1 hc2
      exact interval_bound_lemma hl hh sinb9.1 sinb9.2 expb1.1 expb1.2
        (by push_cast; norm_num) (by push_cast; norm_num)
        hc1 hc2
    · rw [show Real.pi * (((10 : ℕ) : ℝ) * 1 / 19) / 1 =
          Real.pi * ((10 : ℕ) : ℝ) / 19 from by push_cast; ring]
      have hl := hlowD 10
      rw [getD_map_cast] at hl
      have hh := hhighD 10
      rw [getD_map_cast] at hh
      have hq := qcheck1 10 (by decide)
      rw [show sLo.getD 10 0 = (996580 / 1000000 : ℚ) from rfl,
        show sHi.getD 10 0 = (996589 / 1000000 : ℚ) from rfl] at hq
      have hc1 := (Rat.cast_le (K := ℝ)).mpr hq.1
      have hc2 := (Rat.cast_le (K := ℝ)).mpr hq.2
      rw [Rat.cast_add, Rat.cast_mul,
        show ((1 / 100 : ℚ) : ℝ) = 1 / 100 from by norm_num] at hc1 hc2
      exact interval_bound_lemma hl hh sinb10.1 sinb10.2 expb1.1 expb1.2
        (by push_cast; norm_num) (by push_cast; norm_num)
        hc1 hc2
    · rw [show Real.pi * (((11 : ℕ) : ℝ) * 1 / 19) / 1 =
          Real.pi * ((11 : ℕ) : ℝ) / 19 from by push_cast; ring]
      have hl := hlowD 11
      rw [getD_map_cast] at hl
      have hh := hhighD 11
      rw [getD_map_cast] at hh
      have hq := qcheck1 11 (by decide)
      rw [show sLo.getD 11 0 = (969395 / 1000000 : ℚ) from rfl,
        show sHi.getD 11 0 = (969405 / 1000000 : ℚ) from rfl] at hq
      have hc1 := (Rat.cast_le (K := ℝ)).mpr hq.1
      have hc2 := (Rat.cast_le (K := ℝ)).mpr hq.2
      rw [Rat.cast_add, Rat.cast_mul,
        show ((1 / 100 : ℚ) : ℝ) = 1 / 100 from by norm_num] at hc1 hc2
      exact interval_bound_lemma hl hh sinb11.1 sinb11.2 expb1.1 expb1.2
        (by push_cast; norm_num) (by push_cast; norm_num)
        hc1 hc2
    · rw [show Real.pi * (((12 : ℕ) : ℝ) * 1 / 19) / 1 =
          Real.pi * ((12 : ℕ) : ℝ) / 19 from by push_cast; ring]
      have hl := hlowD 12
      rw [getD_map_cast] at hl
      have hh := hhighD 12
      rw [getD_map_cast] at hh
      have hq := qcheck1 12 (by decide)
      rw [show sLo.getD 12 0 = (915769 / 1000000 : ℚ) from rfl,
        show sHi.getD 12 0 = (915778 / 1000000 : ℚ) from rfl] at hq
      have hc1 := (Rat.cast_le (K := ℝ)).mpr hq.1
      have hc2 := (Rat.cast_le (K := ℝ)).mpr hq.2
      rw [Rat.cast_add, Rat.cast_mul,
        show ((1 / 100 : ℚ) : ℝ) = 1 / 100 from by norm_num] at hc1 hc2
      exact interval_bound_lemma hl hh sinb12.1 sinb12.2 expb1.1 expb1.2
        (by push_cast; norm_num) (by push_cast; norm_num)
        hc1 hc2
    · rw [show Real.pi * (((13 : ℕ) : ℝ) * 1 / 19) / 1 =
          Real.pi * ((13 : ℕ) : ℝ) / 19 from by push_cast; ring]
      have hl := hlowD 13
      rw [getD_map_cast] at hl
      have hh := hhighD 13
      rw [getD_map_cast] at hh
      have hq := qcheck1 13 (by decide)
      rw [show sLo.getD 13 0 = (837159 / 1000000 : ℚ) from rfl,
        show sHi.getD 13 0 = (837169 / 1000000 : ℚ) from rfl] at hq
      have hc1 := (Rat.cast_le (K := ℝ)).mpr hq.1
      have hc2 := (Rat.cast_le (K := ℝ)).mpr hq.2
      rw [Rat.cast_add, Rat.cast_mul,
        show ((1 / 100 : ℚ) : ℝ) = 1 / 100 from by norm_num] at hc1 hc2
      exact interval_bound_lemma hl hh sinb13.1 sinb13.2 expb1.1 expb1.2
        (by push_cast; norm_num) (by push_cast; norm_num)
        hc1 hc2
    · rw [show Real.pi * (((14 : ℕ) : ℝ) * 1 / 19) / 1 =
          Real.pi * ((14 : ℕ) : ℝ) / 19 from by push_cast; ring]
      have hl := hlowD 14
      rw [getD_map_cast] at hl
      have hh := hhighD 14
      rw [getD_map_cast] at hh
      have hq := qcheck1 14 (by decide)
      rw [show sLo.getD 14 0 = (735718 / 1000000 : ℚ) from rfl,
        show sHi.getD 14 0 = (735728 / 1000000 : ℚ) from rfl] at hq
      have hc1 := (Rat.cast_le (K := ℝ)).mpr hq.1
      have hc2 := (Rat.cast_le (K := ℝ)).mpr hq.2
      rw [Rat.cast_add, Rat.cast_mul,
        show ((1 / 100 : ℚ) : ℝ) = 1 / 100 from by norm_num] at hc1 hc2
      exact interval_bound_lemma hl hh sinb14.1 sinb14.2 expb1.1 expb1.2
        (by push_cast; norm_num) (by push_cast; norm_num)
        hc1 hc2
    · rw [show Real.pi * (((15 : ℕ) : ℝ) * 1 / 19) / 1 =
          Real.pi * ((15 : ℕ) : ℝ) / 19 from by push_cast; ring]
      have hl := hlowD 15
      rw [getD_map_cast] at hl
      have hh := hhighD 15
      rw [getD_map_cast] at hh
      have hq := qcheck1 15 (by decide)
      rw [show sLo.getD 15 0 = (614208 / 1000000 : ℚ) from rfl,
        show sHi.getD 15 0 = (614217 / 1000000 : ℚ) from rfl] at hq
      have hc1 := (Rat.cast_le (K := ℝ)).mpr hq.1
      have hc2 := (Rat.cast_le (K := ℝ)).mpr hq.2
      rw [Rat.cast_add, Rat.cast_mul,
        show ((1 / 100 : ℚ) : ℝ) = 1 / 100 from by norm_num] at hc1 hc2
      exact interval_bound_lemma hl hh sinb15.1 sinb15.2 expb1.1 expb1.2
        (by push_cast; norm_num) (by push_cast; norm_num)
        hc1 hc2
    · rw [show Real.pi * (((16 : ℕ) : ℝ) * 1 / 19) / 1 =
          Real.pi * ((16 : ℕ) : ℝ) / 19 from by push_cast; ring]
      have hl := hlowD 16
      rw [getD_map_cast] at hl
      have hh := hhighD 16
      rw [getD_map_cast] at hh
      have hq := qcheck1 16 (by decide)
      rw [show sLo.getD 16 0 = (475942 / 1000000 : ℚ) from rfl,
        show sHi.getD 16 0 = (475952 / 1000000 : ℚ) from rfl] at hq
      have hc1 := (Rat.cast_le (K := ℝ)).mpr hq.1
      have hc2 := (Rat.cast_le (K := ℝ)).mpr hq.2
      rw [Rat.cast_add, Rat.cast_mul,
        show ((1 / 100 : ℚ) : ℝ) = 1 / 100 from by norm_num] at hc1 hc2
      exact interval_bound_lemma hl hh sinb16.1 sinb16.2 expb1.1 expb1.2
        (by push_cast; norm_num) (by push_cast; norm_num)
        hc1 hc2
    · rw [show Real.pi * (((17 : ℕ) : ℝ) * 1 / 19) / 1 =
          Real.pi * ((17 : ℕ) : ℝ) / 19 from by push_cast; ring]
      have hl := hlowD 17
      rw [getD_map_cast] at hl
      have hh := hhighD 17
      rw [getD_map_cast] at hh
      have hq := qcheck1 17 (by decide)
      rw [show sLo.getD 17 0 = (324695 / 1000000 : ℚ) from rfl,
        show sHi.getD 17 0 = (324704 / 1000000 : ℚ) from rfl] at hq
      have hc1 := (Rat.cast_le (K := ℝ)).mpr hq.1
      have hc2 := (Rat.cast_le (K := ℝ)).mpr hq.2
      rw [Rat.cast_add, Rat.cast_mul,
        show ((1 / 100 : ℚ) : ℝ) = 1 / 100 from by norm_num] at hc1 hc2
      exact interval_bound_lemma hl hh sinb17.1 sinb17.2 expb1.1 expb1.2
        (by push_cast; norm_num) (by push_cast; norm_num)
        hc1 hc2
    · rw [show Real.pi * (((18 : ℕ) : ℝ) * 1 / 19) / 1 =
          Real.pi * ((18 : ℕ) : ℝ) / 19 from by push_cast; ring]
      have hl := hlowD 18
      rw [getD_map_cast] at hl
      have hh := hhighD 18
      rw [getD_map_cast] at hh
      have hq := qcheck1 18 (by decide)
      rw [show sLo.getD 18 0 = (164590 / 1000000 : ℚ) from rfl,
        show sHi.getD 18 0 = (164599 / 1000000 : ℚ) from rfl] at hq
      have hc1 := (Rat.cast_le (K := ℝ)).mpr hq.1
      have hc2 := (Rat.cast_le (K := ℝ)).mpr hq.2
      rw [Rat.cast_add, Rat.cast_mul,
        show ((1 / 100 : ℚ) : ℝ) = 1 / 100 from by norm_num] at hc1 hc2
      exact interval_bound_lemma hl hh sinb18.1 sinb18.2 expb1.1 expb1.2
        (by push_cast; norm_num) (by push_cast; norm_num)
        hc1 hc2
  · have hlist : ((List.range' 1 18).map fun k =>
        Real.sin (Real.pi * ((k : ℝ) * 2 / 19) / 2)) =
        ((List.range' 1 18).map fun k => Real.sin (Real.pi * (k : ℝ) / 19)) :=
      List.map_congr_left fun j _ => congrArg Real.sin (by push_cast; ring)
    rw [hlist, heat_eq_iter _ 10 20 _ _ _ (by norm_num) (by norm_num),
      show ((10 : ℤ) - 1).toNat = 9 from rfl,
      iterExcept_of_stable 9 _ (show 1 / 100 * (1 / 2 / (((10 : ℤ) : ℝ) - 1)) / (2 / (((20 : ℤ) : ℝ) - 1)) ^ 2 ≤ 1 / 2 by push_cast; norm_num)]
    refine ⟨rfl, ?_⟩
    intro v hv
    obtain rfl := Except.ok.inj hv
    rw [show 1 / 100 * (1 / 2 / (((10 : ℤ) : ℝ) - 1)) / (2 / (((20 : ℤ) : ℝ) - 1)) ^ 2 = ((361 / 7200 : ℚ) : ℝ) from by push_cast; norm_num,
      show (-(1 / 2 * (1 / 100) * (Real.pi / 2) ^ 2) : ℝ) =
        -(Real.pi ^ 2 / 800) from by ring]
    have hlow : List.Forall₂ (· ≤ ·)
        ((iterStencil (361 / 7200 : ℚ) 9 sLo).map fun q => ((q : ℚ) : ℝ))
        (iterStencil ((361 / 7200 : ℚ) : ℝ) 9
          ([0] ++ ((List.range' 1 18).map fun k =>
          Real.sin (Real.pi * (k : ℝ) / 19)) ++ [0])) := by
      rw [iterStencil_map_cast]
      exact iterStencil_mono (by push_cast; norm_num) (by push_cast; norm_num)
        sLo_le_sinList 9
    have hhigh : List.Forall₂ (· ≤ ·)
        (iterStencil ((361 / 7200 : ℚ) : ℝ) 9
          ([0] ++ ((List.range' 1 18).map fun k =>
          Real.sin (Real.pi * (k : ℝ) / 19)) ++ [0]))
        ((iterStencil (361 / 7200 : ℚ) 9 sHi).map fun q => ((q : ℚ) : ℝ)) := by
      rw [iterStencil_map_cast]
      exact iterStencil_mono (by push_cast; norm_num) (by push_cast; norm_num)
        sinList_le_sHi 9
    have hlowD := forall₂_getD_le hlow
    have hhighD := forall₂_getD_le hhigh
    intro k hk1 hk2
    interval_cases k
    · rw [show Real.pi * (((1 : ℕ) : ℝ) * 2 / 19) / 2 =
          Real.pi * ((1 : ℕ) : ℝ) / 19 from by push_cast; ring]
      have hl := hlowD 1
      rw [getD_map_cast] at hl
      have hh := hhighD 1
      rw [getD_map_cast] at hh
      have hq := qcheck2 1 (by decide)
      rw [show sLo.getD 1 0 = (164590 / 1000000 : ℚ) from rfl,
        show sHi.getD 1 0 = (164599 / 1000000 : ℚ) from rfl] at hq
      have hc1 := (Rat.cast_le (K := ℝ)).mpr hq.1
      have hc2 := (Rat.cast_le (K := ℝ)).mpr hq.2
      rw [Rat.cast_add, Rat.cast_mul,
        show ((1 / 100 : ℚ) : ℝ) = 1 / 100 from by norm_num] at hc1 hc2
      exact interval_bound_lemma hl hh sinb1.1 sinb1.2 expb2.1 expb2.2
        (by push_cast; norm_num) (by push_cast; norm_num)
        hc1 hc2
    · rw [show Real.pi * (((2 : ℕ) : ℝ) * 2 / 19) / 2 =
          Real.pi * ((2 : ℕ) : ℝ) / 19 from by push_cast; ring]
      have hl := hlowD 2
      rw [getD_map_cast] at hl
      have hh := hhighD 2
      rw [getD_map_cast] at hh
      have hq := qcheck2 2 (by decide)
      rw [show sLo.getD 2 0 = (324695 / 1000000 : ℚ) from rfl,
        show sHi.getD 2 0 = (324704 / 1000000 : ℚ) from rfl] at hq
      have hc1 := (Rat.cast_le (K := ℝ)).mpr hq.1
      have hc2 := (Rat.cast_le (K := ℝ)).mpr hq.2
      rw [Rat.cast_add, Rat.cast_mul,
        show ((1 / 100 : ℚ) : ℝ) = 1 / 100 from by norm_num] at hc1 hc2
      exact interval_bound_lemma hl hh sinb2.1 sinb2.2 expb2.1 expb2.2
        (by push_cast; norm_num) (by push_cast; norm_num)
        hc1 hc2
    · rw [show Real.pi * (((3 : ℕ) : ℝ) * 2 / 19) / 2 =
          Real.pi * ((3 : ℕ) : ℝ) / 19 from by push_cast; ring]
      have hl := hlowD 3
      rw [getD_map_cast] at hl
      have hh := hhighD 3
      rw [getD_map_cast] at hh
      have hq := qcheck2 3 (by decide)
      rw [show sLo.getD 3 0 = (475942 / 1000000 : ℚ) from rfl,
        show sHi.getD 3 0 = (475952 / 1000000 : ℚ) from rfl] at hq
      have hc1 := (Rat.cast_le (K := ℝ)).mpr hq.1
      have hc2 := (Rat.cast_le (K := ℝ)).mpr hq.2
      rw [Rat.cast_add, Rat.cast_mul,
        show ((1 / 100 : ℚ) : ℝ) = 1 / 100 from by norm_num] at hc1 hc2
      exact interval_bound_lemma hl hh sinb3.1 sinb3.2 expb2.1 expb2.2
        (by push_cast; norm_num) (by push_cast; norm_num)
        hc1 hc2
    · rw [show Real.pi * (((4 : ℕ) : ℝ) * 2 / 19) / 2 =
          Real.pi * ((4 : ℕ) : ℝ) / 19 from by push_cast; ring]
      have hl := hlowD 4
      rw [getD_map_cast] at hl
      have hh := hhighD 4
      rw [getD_map_cast] at hh
      have hq := qcheck2 4 (by decide)
      rw [show sLo.getD 4 0 = (614208 / 1000000 : ℚ) from rfl,
        show sHi.getD 4 0 = (614217 / 1000000 : ℚ) from rfl] at hq
      have hc1 := (Rat.cast_le (K := ℝ)).mpr hq.1
      have hc2 := (Rat.cast_le (K := ℝ)).mpr hq.2
      rw [Rat.cast_add, Rat.cast_mul,
        show ((1 / 100 : ℚ) : ℝ) = 1 / 100 from by norm_num] at hc1 hc2
      exact interval_bound_lemma hl hh sinb4.1 sinb4.2 expb2.1 expb2.2
        (by push_cast; norm_num) (by push_cast; norm_num)
        hc1 hc2
    · rw [show Real.pi * (((5 : ℕ) : ℝ) * 2 / 19) / 2 =
          Real.pi * ((5 : ℕ) : ℝ) / 19 from by push_cast; ring]
      have hl := hlowD 5
      rw [getD_map_cast] at hl
      have hh := hhighD 5
      rw [getD_map_cast] at hh
      have hq := qcheck2 5 (by decide)
      rw [show sLo.getD 5 0 = (735718 / 1000000 : ℚ) from rfl,
        show sHi.getD 5 0 = (735728 / 1000000 : ℚ) from rfl] at hq
      have hc1 := (Rat.cast_le (K := ℝ)).mpr hq.1
      have hc2 := (Rat.cast_le (K := ℝ)).mpr hq.2
      rw [Rat.cast_add, Rat.cast_mul,
        show ((1 / 100 : ℚ) : ℝ) = 1 / 100 from by norm_num] at hc1 hc2
      exact interval_bound_lemma hl hh sinb5.1 sinb5.2 expb2.1 expb2.2
        (by push_cast; norm_num) (by push_cast; norm_num)
        hc1 hc2
    · rw [show Real.pi * (((6 : ℕ) : ℝ) * 2 / 19) / 2 =
          Real.pi * ((6 : ℕ) : ℝ) / 19 from by push_cast; ring]
      have hl := hlowD 6
      rw [getD_map_cast] at hl
      have hh := hhighD 6
      rw [getD_map_cast] at hh
      have hq := qcheck2 6 (by decide)
      rw [show sLo.getD 6 0 = (837159 / 1000000 : ℚ) from rfl,
        show sHi.getD 6 0 = (837169 / 1000000 : ℚ) from rfl] at hq
      have hc1 := (Rat.cast_le (K := ℝ)).mpr hq.1
      have hc2 := (Rat.cast_le (K := ℝ)).mpr hq.2
      rw [Rat.cast_add, Rat.cast_mul,
        show ((1 / 100 : ℚ) : ℝ) = 1 / 100 from by norm_num] at hc1 hc2
      exact interval_bound_lemma hl hh sinb6.1 sinb6.2 expb2.1 expb2.2
        (by push_cast; norm_num) (by push_cast; norm_num)
        hc1 hc2
    · rw [show Real.pi * (((7 : ℕ) : ℝ) * 2 / 19) / 2 =
          Real.pi * ((7 : ℕ) : ℝ) / 19 from by push_cast; ring]
      have hl := hlowD 7
      rw [getD_map_cast] at hl
      have hh := hhighD 7
      rw [getD_map_cast] at hh
      have hq := qcheck2 7 (by decide)
      rw [show sLo.getD 7 0 = (915769 / 1000000 : ℚ) from rfl,
        show sHi.getD 7 0 = (915778 / 1000000 : ℚ) from rfl] at hq
      have hc1 := (Rat.cast_le (K := ℝ)).mpr hq.1
      have hc2 := (Rat.cast_le (K := ℝ)).mpr hq.2
      rw [Rat.cast_add, Rat.cast_mul,
        show ((1 / 100 : ℚ) : ℝ) = 1 / 100 from by norm_num] at hc1 hc2
      exact interval_bound_lemma hl hh sinb7.1 sinb7.2 expb2.1 expb2.2
        (by push_cast; norm_num) (by push_cast; norm_num)
        hc1 hc2
    · rw [show Real.pi * (((8 : ℕ) : ℝ) * 2 / 19) / 2 =
          Real.pi * ((8 : ℕ) : ℝ) / 19 from by push_cast; ring]
      have hl := hlowD 8
      rw [getD_map_cast] at hl
      have hh := hhighD 8
      rw [getD_map_cast] at hh
      have hq := qcheck2 8 (by decide)
      rw [show sLo.getD 8 0 = (969395 / 1000000 : ℚ) from rfl,
        show sHi.getD 8 0 = (969405 / 1000000 : ℚ) from rfl] at hq
      have hc1 := (Rat.cast_le (K := ℝ)).mpr hq.1
      have hc2 := (Rat.cast_le (K := ℝ)).mpr hq.2
      rw [Rat.cast_add, Rat.cast_mul,
        show ((1 / 100 : ℚ) : ℝ) = 1 / 100 from by norm_num] at hc1 hc2
      exact interval_bound_lemma hl hh sinb8.1 sinb8.2 expb2.1 expb2.2
        (by push_cast; norm_num) (by push_cast; norm_num)
        hc1 hc2
    · rw [show Real.pi * (((9 : ℕ) : ℝ) * 2 / 19) / 2 =
          Real.pi * ((9 : ℕ) : ℝ) / 19 from by push_cast; ring]
      have hl := hlowD 9
      rw [getD_map_cast] at hl
      have hh := hhighD 9
      rw [getD_map_cast] at hh
      have hq := qcheck2 9 (by decide)
      rw [show sLo.getD 9 0 = (996580 / 1000000 : ℚ) from rfl,
        show sHi.getD 9 0 = (996589 / 1000000 : ℚ) from rfl] at hq
      have hc1 := (Rat.cast_le (K := ℝ)).mpr hq.1
      have hc2 := (Rat.cast_le (K := ℝ)).mpr hq.2
      rw [Rat.cast_add, Rat.cast_mul,
        show ((1 / 100 : ℚ) : ℝ) = 1 / 100 from by norm_num] at hc1 hc2
      exact interval_bound_lemma hl hh sinb9.1 sinb9.2 expb2.1 expb2.2
        (by push_cast; norm_num) (by push_cast; norm_num)
        hc1 hc2
    · rw [show Real.pi * (((10 : ℕ) : ℝ) * 2 / 19) / 2 =
          Real.pi * ((10 : ℕ) : ℝ) / 19 from by push_cast; ring]
      have hl := hlowD 10
      rw [getD_map_cast] at hl
      have hh := hhighD 10
      rw [getD_map_cast] at hh
      have hq := qcheck2 10 (by decide)
      rw [show sLo.getD 10 0 = (996580 / 1000000 : ℚ) from rfl,
        show sHi.getD 10 0 = (996589 / 1000000 : ℚ) from rfl] at hq
      have hc1 := (Rat.cast_le (K := ℝ)).mpr hq.1
      have hc2 := (Rat.cast_le (K := ℝ)).mpr hq.2
      rw [Rat.cast_add, Rat.cast_mul,
        show ((1 / 100 : ℚ) : ℝ) = 1 / 100 from by norm_num] at hc1 hc2
      exact interval_bound_lemma hl hh sinb10.1 sinb10.2 expb2.1 expb2.2
        (by push_cast; norm_num) (by push_cast; norm_num)
        hc1 hc2
    · rw [show Real.pi * (((11 : ℕ) : ℝ) * 2 / 19) / 2 =
          Real.pi * ((11 : ℕ) : ℝ) / 19 from by push_cast; ring]
      have hl := hlowD 11
      rw [getD_map_cast] at hl
      have hh := hhighD 11
      rw [getD_map_cast] at hh
      have hq := qcheck2 11 (by decide)
      rw [show sLo.getD 11 0 = (969395 / 1000000 : ℚ) from rfl,
        show sHi.getD 11 0 = (969405 / 1000000 : ℚ) from rfl] at hq
      have hc1 := (Rat.cast_le (K := ℝ)).mpr hq.1
      have hc2 := (Rat.cast_le (K := ℝ)).mpr hq.2
      rw [Rat.cast_add, Rat.cast_mul,
        show ((1 / 100 : ℚ) : ℝ) = 1 / 100 from by norm_num] at hc1 hc2
      exact interval_bound_lemma hl hh sinb11.1 sinb11.2 expb2.1 expb2.2
        (by push_cast; norm_num) (by push_cast; norm_num)
        hc1 hc2
    · rw [show Real.pi * (((12 : ℕ) : ℝ) * 2 / 19) / 2 =
          Real.pi * ((12 : ℕ) : ℝ) / 19 from by push_cast; ring]
      have hl := hlowD 12
      rw [getD_map_cast] at hl
      have hh := hhighD 12
      rw [getD_map_cast] at hh
      have hq := qcheck2 12 (by decide)
      rw [show sLo.getD 12 0 = (915769 / 1000000 : ℚ) from rfl,
        show sHi.getD 12 0 = (915778 / 1000000 : ℚ) from rfl] at hq
      have hc1 := (Rat.cast_le (K := ℝ)).mpr hq.1
      have hc2 := (Rat.cast_le (K := ℝ)).mpr hq.2
      rw [Rat.cast_add, Rat.cast_mul,
        show ((1 / 100 : ℚ) : ℝ) = 1 / 100 from by norm_num] at hc1 hc2
      exact interval_bound_lemma hl hh sinb12.1 sinb12.2 expb2.1 expb2.2
        (by push_cast; norm_num) (by push_cast; norm_num)
        hc1 hc2
    · rw [show Real.pi * (((13 : ℕ) : ℝ) * 2 / 19) / 2 =
          Real.pi * ((13 : ℕ) : ℝ) / 19 from by push_cast; ring]
      have hl := hlowD 13
      rw [getD_map_cast] at hl
      have hh := hhighD 13
      rw [getD_map_cast] at hh
      have hq := qcheck2 13 (by decide)
      rw [show sLo.getD 13 0 = (837159 / 1000000 : ℚ) from rfl,
        show sHi.getD 13 0 = (837169 / 1000000 : ℚ) from rfl] at hq
      have hc1 := (Rat.cast_le (K := ℝ)).mpr hq.1
      have hc2 := (Rat.cast_le (K := ℝ)).mpr hq.2
      rw [Rat.cast_add, Rat.cast_mul,
        show ((1 / 100 : ℚ) : ℝ) = 1 / 100 from by norm_num] at hc1 hc2
      exact interval_bound_lemma hl hh sinb13.1 sinb13.2 expb2.1 expb2.2
        (by push_cast; norm_num) (by push_cast; norm_num)
        hc1 hc2
    · rw [show Real.pi * (((14 : ℕ) : ℝ) * 2 / 19) / 2 =
          Real.pi * ((14 : ℕ) : ℝ) / 19 from by push_cast; ring]
      have hl := hlowD 14
      rw [getD_map_cast] at hl
      have hh := hhighD 14
      rw [getD_map_cast] at hh
      have hq := qcheck2 14 (by decide)
      rw [show sLo.getD 14 0 = (735718 / 1000000 : ℚ) from rfl,
        show sHi.getD 14 0 = (735728 / 1000000 : ℚ) from rfl] at hq
      have hc1 := (Rat.cast_le (K := ℝ)).mpr hq.1
      have hc2 := (Rat.cast_le (K := ℝ)).mpr hq.2
      rw [Rat.cast_add, Rat.cast_mul,
        show ((1 / 100 : ℚ) : ℝ) = 1 / 100 from by norm_num] at hc1 hc2
      exact interval_bound_lemma hl hh sinb14.1 sinb14.2 expb2.1 expb2.2
        (by push_cast; norm_num) (by push_cast; norm_num)
        hc1 hc2
    · rw [show Real.pi * (((15 : ℕ) : ℝ) * 2 / 19) / 2 =
          Real.pi * ((15 : ℕ) : ℝ) / 19 from by push_cast; ring]
      have hl := hlowD 15
      rw [getD_map_cast] at hl
      have hh := hhighD 15
      rw [getD_map_cast] at hh
      have hq := qcheck2 15 (by decide)
      rw [show sLo.getD 15 0 = (614208 / 1000000 : ℚ) from rfl,
        show sHi.getD 15 0 = (614217 / 1000000 : ℚ) from rfl] at hq
      have hc1 := (Rat.cast_le (K := ℝ)).mpr hq.1
      have hc2 := (Rat.cast_le (K := ℝ)).mpr hq.2
      rw [Rat.cast_add, Rat.cast_mul,
        show ((1 / 100 : ℚ) : ℝ) = 1 / 100 from by norm_num] at hc1 hc2
      exact interval_bound_lemma hl hh sinb15.1 sinb15.2 expb2.1 expb2.2
        (by push_cast; norm_num) (by push_cast; norm_num)
        hc1 hc2
    · rw [show Real.pi * (((16 : ℕ) : ℝ) * 2 / 19) / 2 =
          Real.pi * ((16 : ℕ) : ℝ) / 19 from by push_cast; ring]
      have hl := hlowD 16
      rw [getD_map_cast] at hl
      have hh := hhighD 16
      rw [getD_map_cast] at hh
      have hq := qcheck2 16 (by decide)
      rw [show sLo.getD 16 0 = (475942 / 1000000 : ℚ) from rfl,
        show sHi.getD 16 0 = (475952 / 1000000 : ℚ) from rfl] at hq
      have hc1 := (Rat.cast_le (K := ℝ)).mpr hq.1
      have hc2 := (Rat.cast_le (K := ℝ)).mpr hq.2
      rw [Rat.cast_add, Rat.cast_mul,
        show ((1 / 100 : ℚ) : ℝ) = 1 / 100 from by norm_num] at hc1 hc2
      exact interval_bound_lemma hl hh sinb16.1 sinb16.2 expb2.1 expb2.2
        (by push_cast; norm_num) (by push_cast; norm_num)
        hc1 hc2
    · rw [show Real.pi * (((17 : ℕ) : ℝ) * 2 / 19) / 2 =
          Real.pi * ((17 : ℕ) : ℝ) / 19 from by push_cast; ring]
      have hl := hlowD 17
      rw [getD_map_cast] at hl
      have hh := hhighD 17
      rw [getD_map_cast] at hh
      have hq := qcheck2 17 (by decide)
      rw [show sLo.getD 17 0 = (324695 / 1000000 : ℚ) from rfl,
        show sHi.getD 17 0 = (324704 / 1000000 : ℚ) from rfl] at hq
      have hc1 := (Rat.cast_le (K := ℝ)).mpr hq.1
      have hc2 := (Rat.cast_le (K := ℝ)).mpr hq.2
      rw [Rat.cast_add, Rat.cast_mul,
        show ((1 / 100 : ℚ) : ℝ) = 1 / 100 from by norm_num] at hc1 hc2
      exact interval_bound_lemma hl hh sinb17.1 sinb17.2 expb2.1 expb2.2
        (by push_cast; norm_num) (by push_cast; norm_num)
        hc1 hc2
    · rw [show Real.pi * (((18 : ℕ) : ℝ) * 2 / 19) / 2 =
          Real.pi * ((18 : ℕ) : ℝ) / 19 from by push_cast; ring]
      have hl := hlowD 18
      rw [getD_map_cast] at hl
      have hh := hhighD 18
      rw [getD_map_cast] at hh
      have hq := qcheck2 18 (by decide)
      rw [show sLo.getD 18 0 = (164590 / 1000000 : ℚ) from rfl,
        show sHi.getD 18 0 = (164599 / 1000000 : ℚ) from rfl] at hq
      have hc1 := (Rat.cast_le (K := ℝ)).mpr hq.1
      have hc2 := (Rat.cast_le (K := ℝ)).mpr hq.2
      rw [Rat.cast_add, Rat.cast_mul,
        show ((1 / 100 : ℚ) : ℝ) = 1 / 100 from by norm_num] at hc1 hc2
      exact interval_bound_lemma hl hh sinb18.1 sinb18.2 expb2.1 expb2.2
        (by push_cast; norm_num) (by push_cast; norm_num)
        hc1 hc2
  · have hlist : ((List.range' 1 18).map fun k =>
        Real.sin (Real.pi * ((k : ℝ) * 1 / 19) / 1)) =
        ((List.range' 1 18).map fun k => Real.sin (Real.pi * (k : ℝ) / 19)) :=
      List.map_congr_left fun j _ => congrArg Real.sin (by push_cast; ring)
    rw [hlist, heat_eq_iter _ 10 20 _ _ _ (by norm_num) (by norm_num),
      show ((10 : ℤ) - 1).toNat = 9 from rfl,
      iterExcept_of_stable 9 _ (show 1 / 100 * (1 / (((10 : ℤ) : ℝ) - 1)) / (1 / (((20 : ℤ) : ℝ) - 1)) ^ 2 ≤ 1 / 2 by push_cast; norm_num)]
    refine ⟨rfl, ?_⟩
    intro v hv
    obtain rfl := Except.ok.inj hv
    rw [show 1 / 100 * (1 / (((10 : ℤ) : ℝ) - 1)) / (1 / (((20 : ℤ) : ℝ) - 1)) ^ 2 = ((361 / 900 : ℚ) : ℝ) from by push_cast; norm_num,
      show (-(1 * (1 / 100) * (Real.pi / 1) ^ 2) : ℝ) =
        -(Real.pi ^ 2 / 100) from by ring]
    have hlow : List.Forall₂ (· ≤ ·)
        ((iterStencil (361 / 900 : ℚ) 9 sLo).map fun q => ((q : ℚ) : ℝ))
        (iterStencil ((361 / 900 : ℚ) : ℝ) 9
          ([0] ++ ((List.range' 1 18).map fun k =>
          Real.sin (Real.pi * (k : ℝ) / 19)) ++ [0])) := by
      rw [iterStencil_map_cast]
      exact iterStencil_mono (by push_cast; norm_num) (by push_cast; norm_num)
        sLo_le_sinList 9
    have hhigh : List.Forall₂ (· ≤ ·)
        (iterStencil ((361 / 900 : ℚ) : ℝ) 9
          ([0] ++ ((List.range' 1 18).map fun k =>
          Real.sin (Real.pi * (k : ℝ) / 19)) ++ [0]))
        ((iterStencil (361 / 900 : ℚ) 9 sHi).map fun q => ((q : ℚ) : ℝ)) := by
      rw [iterStencil_map_cast]
      exact iterStencil_mono (by push_cast; norm_num) (by push_cast; norm_num)
        sinList_le_sHi 9
    have hlowD := forall₂_getD_le hlow
    have hhighD := forall₂_getD_le hhigh
    intro k hk1 hk2
    interval_cases k
    · rw [show Real.pi * (((1 : ℕ) : ℝ) * 1 / 19) / 1 =
          Real.pi * ((1 : ℕ) : ℝ) / 19 from by push_cast; ring]
      have hl := hlowD 1
      rw [getD_map_cast] at hl
      have hh := hhighD 1
      rw [getD_map_cast] at hh
      have hq := qcheck3 1 (by decide)
      rw [show sLo.getD 1 0 = (164590 / 1000000 : ℚ) from rfl,
        show sHi.getD 1 0 = (164599 / 1000000 : ℚ) from rfl] at hq
      have hc1 := (Rat.cast_le (K := ℝ)).mpr hq.1
      have hc2 := (Rat.cast_le (K := ℝ)).mpr hq.2
      rw [Rat.cast_add, Rat.cast_mul,
        show ((1 / 100 : ℚ) : ℝ) = 1 / 100 from by norm_num] at hc1 hc2
      exact interval_bound_lemma hl hh sinb1.1 sinb1.2 expb3.1 expb3.2
        (by push_cast; norm_num) (by push_cast; norm_num)
        hc1 hc2
    · rw [show Real.pi * (((2 : ℕ) : ℝ) * 1 / 19) / 1 =
          Real.pi * ((2 : ℕ) : ℝ) / 19 from by push_cast; ring]
      have hl := hlowD 2
      rw [getD_map_cast] at hl
      have hh := hhighD 2
      rw [getD_map_cast] at hh
      have hq := qcheck3 2 (by decide)
      rw [show sLo.getD 2 0 = (324695 / 1000000 : ℚ) from rfl,
        show sHi.getD 2 0 = (324704 / 1000000 : ℚ) from rfl] at hq
      have hc1 := (Rat.cast_le (K := ℝ)).mpr hq.1
      have hc2 := (Rat.cast_le (K := ℝ)).mpr hq.2
      rw [Rat.cast_add, Rat.cast_mul,
        show ((1 / 100 : ℚ) : ℝ) = 1 / 100 from by norm_num] at hc1 hc2
      exact interval_bound_lemma hl hh sinb2.1 sinb2.2 expb3.1 expb3.2
        (by push_cast; norm_num) (by push_cast; norm_num)
        hc1 hc2
    · rw [show Real.pi * (((3 : ℕ) : ℝ) * 1 / 19) / 1 =
          Real.pi * ((3 : ℕ) : ℝ) / 19 from by push_cast; ring]
      have hl := hlowD 3
      rw [getD_map_cast] at hl
      have hh := hhighD 3
      rw [getD_map_cast] at hh
      have hq := qcheck3 3 (by decide)
      rw [show sLo.getD 3 0 = (475942 / 1000000 : ℚ) from rfl,
        show sHi.getD 3 0 = (475952 / 1000000 : ℚ) from rfl] at hq
      have hc1 := (Rat.cast_le (K := ℝ)).mpr hq.1
      have hc2 := (Rat.cast_le (K := ℝ)).mpr hq.2
      rw [Rat.cast_add, Rat.cast_mul,
        show ((1 / 100 : ℚ) : ℝ) = 1 / 100 from by norm_num] at hc1 hc2
      exact interval_bound_lemma hl hh sinb3.1 sinb3.2 expb3.1 expb3.2
        (by push_cast; norm_num) (by push_cast; norm_num)
        hc1 hc2
    · rw [show Real.pi * (((4 : ℕ) : ℝ) * 1 / 19) / 1 =
          Real.pi * ((4 : ℕ) : ℝ) / 19 from by push_cast; ring]
      have hl := hlowD 4
      rw [getD_map_cast] at hl
      have hh := hhighD 4
      rw [getD_map_cast] at hh
      have hq := qcheck3 4 (by decide)
      rw [show sLo.getD 4 0 = (614208 / 1000000 : ℚ) from rfl,
        show sHi.getD 4 0 = (614217 / 1000000 : ℚ) from rfl] at hq
      have hc1 := (Rat.cast_le (K := ℝ)).mpr hq.1
      have hc2 := (Rat.cast_le (K := ℝ)).mpr hq.2
      rw [Rat.cast_add, Rat.cast_mul,
        show ((1 / 100 : ℚ) : ℝ) = 1 / 100 from by norm_num] at hc1 hc2
      exact interval_bound_lemma hl hh sinb4.1 sinb4.2 expb3.1 expb3.2
        (by push_cast; norm_num) (by push_cast; norm_num)
        hc1 hc2
    · rw [show Real.pi * (((5 : ℕ) : ℝ) * 1 / 19) / 1 =
          Real.pi * ((5 : ℕ) : ℝ) / 19 from by push_cast; ring]
      have hl := hlowD 5
      rw [getD_map_cast] at hl
      have hh := hhighD 5
      rw [getD_map_cast] at hh
      have hq := qcheck3 5 (by decide)
      rw [show sLo.getD 5 0 = (735718 / 1000000 : ℚ) from rfl,
        show sHi.getD 5 0 = (735728 / 1000000 : ℚ) from rfl] at hq
      have hc1 := (Rat.cast_le (K := ℝ)).mpr hq.1
      have hc2 := (Rat.cast_le (K := ℝ)).mpr hq.2
      rw [Rat.cast_add, Rat.cast_mul,
        show ((1 / 100 : ℚ) : ℝ) = 1 / 100 from by norm_num] at hc1 hc2
      exact interval_bound_lemma hl hh sinb5.1 sinb5.2 expb3.1 expb3.2
        (by push_cast; norm_num) (by push_cast; norm_num)
        hc1 hc2
    · rw [show Real.pi * (((6 : ℕ) : ℝ) * 1 / 19) / 1 =
          Real.pi * ((6 : ℕ) : ℝ) / 19 from by push_cast; ring]
      have hl := hlowD 6
      rw [getD_map_cast] at hl
      have hh := hhighD 6
      rw [getD_map_cast] at hh
      have hq := qcheck3 6 (by decide)
      rw [show sLo.getD 6 0 = (837159 / 1000000 : ℚ) from rfl,
        show sHi.getD 6 0 = (837169 / 1000000 : ℚ) from rfl] at hq
      have hc1 := (Rat.cast_le (K := ℝ)).mpr hq.1
      have hc2 := (Rat.cast_le (K := ℝ)).mpr hq.2
      rw [Rat.cast_add, Rat.cast_mul,
        show ((1 / 100 : ℚ) : ℝ) = 1 / 100 from by norm_num] at hc1 hc2
      exact interval_bound_lemma hl hh sinb6.1 sinb6.2 expb3.1 expb3.2
        (by push_cast; norm_num) (by push_cast; norm_num)
        hc1 hc2
    · rw [show Real.pi * (((7 : ℕ) : ℝ) * 1 / 19) / 1 =
          Real.pi * ((7 : ℕ) : ℝ) / 19 from by push_cast; ring]
      have hl := hlowD 7
      rw [getD_map_cast] at hl
      have hh := hhighD 7
      rw [getD_map_cast] at hh
      have hq := qcheck3 7 (by decide)
      rw [show sLo.getD 7 0 = (915769 / 1000000 : ℚ) from rfl,
        show sHi.getD 7 0 = (915778 / 1000000 : ℚ) from rfl] at hq
      have hc1 := (Rat.cast_le (K := ℝ)).mpr hq.1
      have hc2 := (Rat.cast_le (K := ℝ)).mpr hq.2
      rw [Rat.cast_add, Rat.cast_mul,
        show ((1 / 100 : ℚ) : ℝ) = 1 / 100 from by norm_num] at hc1 hc2
      exact interval_bound_lemma hl hh sinb7.1 sinb7.2 expb3.1 expb3.2
        (by push_cast; norm_num) (by push_cast; norm_num)
        hc1 hc2
    · rw [show Real.pi * (((8 : ℕ) : ℝ) * 1 / 19) / 1 =
          Real.pi * ((8 : ℕ) : ℝ) / 19 from by push_cast; ring]
      have hl := hlowD 8
      rw [getD_map_cast] at hl
      have hh := hhighD 8
      rw [getD_map_cast] at hh
      have hq := qcheck3 8 (by decide)
      rw [show sLo.getD 8 0 = (969395 / 1000000 : ℚ) from rfl,
        show sHi.getD 8 0 = (969405 / 1000000 : ℚ) from rfl] at hq
      have hc1 := (Rat.cast_le (K := ℝ)).mpr hq.1
      have hc2 := (Rat.cast_le (K := ℝ)).mpr hq.2
      rw [Rat.cast_add, Rat.cast_mul,
        show ((1 / 100 : ℚ) : ℝ) = 1 / 100 from by norm_num] at hc1 hc2
      exact interval_bound_lemma hl hh sinb8.1 sinb8.2 expb3.1 expb3.2
        (by push_cast; norm_num) (by push_cast; norm_num)
        hc1 hc2
    · rw [show Real.pi * (((9 : ℕ) : ℝ) * 1 / 19) / 1 =
          Real.pi * ((9 : ℕ) : ℝ) / 19 from by push_cast; ring]
      have hl := hlowD 9
      rw [getD_map_cast] at hl
      have hh := hhighD 9
      rw [getD_map_cast] at hh
      have hq := qcheck3 9 (by decide)
      rw [show sLo.getD 9 0 = (996580 / 1000000 : ℚ) from rfl,
        show sHi.getD 9 0 = (996589 / 1000000 : ℚ) from rfl] at hq
      have hc1 := (Rat.cast_le (K := ℝ)).mpr hq.1
      have hc2 := (Rat.cast_le (K := ℝ)).mpr hq.2
      rw [Rat.cast_add, Rat.cast_mul,
        show ((1 / 100 : ℚ) : ℝ) = 1 / 100 from by norm_num] at hc1 hc2
      exact interval_bound_lemma hl hh sinb9.1 sinb9.2 expb3.1 expb3.2
        (by push_cast; norm_num) (by push_cast; norm_num)
        hc1 hc2
    · rw [show Real.pi * (((10 : ℕ) : ℝ) * 1 / 19) / 1 =
          Real.pi * ((10 : ℕ) : ℝ) / 19 from by push_cast; ring]
      have hl := hlowD 10
      rw [getD_map_cast] at hl
      have hh := hhighD 10
      rw [getD_map_cast] at hh
      have hq := qcheck3 10 (by decide)
      rw [show sLo.getD 10 0 = (996580 / 1000000 : ℚ) from rfl,
        show sHi.getD 10 0 = (996589 / 1000000 : ℚ) from rfl] at hq
      have hc1 := (Rat.cast_le (K := ℝ)).mpr hq.1
      have hc2 := (Rat.cast_le (K := ℝ)).mpr hq.2
      rw [Rat.cast_add, Rat.cast_mul,
        show ((1 / 100 : ℚ) : ℝ) = 1 / 100 from by norm_num] at hc1 hc2
      exact interval_bound_lemma hl hh sinb10.1 sinb10.2 expb3.1 expb3.2
        (by push_cast; norm_num) (by push_cast; norm_num)
        hc1 hc2
    · rw [show Real.pi * (((11 : ℕ) : ℝ) * 1 / 19) / 1 =
          Real.pi * ((11 : ℕ) : ℝ) / 19 from by push_cast; ring]
      have hl := hlowD 11
      rw [getD_map_cast] at hl
      have hh := hhighD 11
      rw [getD_map_cast] at hh
      have hq := qcheck3 11 (by decide)
      rw [show sLo.getD 11 0 = (969395 / 1000000 : ℚ) from rfl,
        show sHi.getD 11 0 = (969405 / 1000000 : ℚ) from rfl] at hq
      have hc1 := (Rat.cast_le (K := ℝ)).mpr hq.1
      have hc2 := (Rat.cast_le (K := ℝ)).mpr hq.2
      rw [Rat.cast_add, Rat.cast_mul,
        show ((1 / 100 : ℚ) : ℝ) = 1 / 100 from by norm_num] at hc1 hc2
      exact interval_bound_lemma hl hh sinb11.1 sinb11.2 expb3.1 expb3.2
        (by push_cast; norm_num) (by push_cast; norm_num)
        hc1 hc2
    · rw [show Real.pi * (((12 : ℕ) : ℝ) * 1 / 19) / 1 =
          Real.pi * ((12 : ℕ) : ℝ) / 19 from by push_cast; ring]
      have hl := hlowD 12
      rw [getD_map_cast] at hl
      have hh := hhighD 12
      rw [getD_map_cast] at hh
      have hq := qcheck3 12 (by decide)
      rw [show sLo.getD 12 0 = (915769 / 1000000 : ℚ) from rfl,
        show sHi.getD 12 0 = (915778 / 1000000 : ℚ) from rfl] at hq
      have hc1 := (Rat.cast_le (K := ℝ)).mpr hq.1
      have hc2 := (Rat.cast_le (K := ℝ)).mpr hq.2
      rw [Rat.cast_add, Rat.cast_mul,
        show ((1 / 100 : ℚ) : ℝ) = 1 / 100 from by norm_num] at hc1 hc2
      exact interval_bound_lemma hl hh sinb12.1 sinb12.2 expb3.1 expb3.2
        (by push_cast; norm_num) (by push_cast; norm_num)
        hc1 hc2
    · rw [show Real.pi * (((13 : ℕ) : ℝ) * 1 / 19) / 1 =
          Real.pi * ((13 : ℕ) : ℝ) / 19 from by push_cast; ring]
      have hl := hlowD 13
      rw [getD_map_cast] at hl
      have hh := hhighD 13
      rw [getD_map_cast] at hh
      have hq := qcheck3 13 (by decide)
      rw [show sLo.getD 13 0 = (837159 / 1000000 : ℚ) from rfl,
        show sHi.getD 13 0 = (837169 / 1000000 : ℚ) from rfl] at hq
      have hc1 := (Rat.cast_le (K := ℝ)).mpr hq.1
      have hc2 := (Rat.cast_le (K := ℝ)).mpr hq.2
      rw [Rat.cast_add, Rat.cast_mul,
        show ((1 / 100 : ℚ) : ℝ) = 1 / 100 from by norm_num] at hc1 hc2
      exact interval_bound_lemma hl hh sinb13.1 sinb13.2 expb3.1 expb3.2
        (by push_cast; norm_num) (by push_cast; norm_num)
        hc1 hc2
    · rw [show Real.pi * (((14 : ℕ) : ℝ) * 1 / 19) / 1 =
          Real.pi * ((14 : ℕ) : ℝ) / 19 from by push_cast; ring]
      have hl := hlowD 14
      rw [getD_map_cast] at hl
      have hh := hhighD 14
      rw [getD_map_cast] at hh
      have hq := qcheck3 14 (by decide)
      rw [show sLo.getD 14 0 = (735718 / 1000000 : ℚ) from rfl,
        show sHi.getD 14 0 = (735728 / 1000000 : ℚ) from rfl] at hq
      have hc1 := (Rat.cast_le (K := ℝ)).mpr hq.1
      have hc2 := (Rat.cast_le (K := ℝ)).mpr hq.2
      rw [Rat.cast_add, Rat.cast_mul,
        show ((1 / 100 : ℚ) : ℝ) = 1 / 100 from by norm_num] at hc1 hc2
      exact interval_bound_lemma hl hh sinb14.1 sinb14.2 expb3.1 expb3.2
        (by push_cast; norm_num) (by push_cast; norm_num)
        hc1 hc2
    · rw [show Real.pi * (((15 : ℕ) : ℝ) * 1 / 19) / 1 =
          Real.pi * ((15 : ℕ) : ℝ) / 19 from by push_cast; ring]
      have hl := hlowD 15
      rw [getD_map_cast] at hl
      have hh := hhighD 15
      rw [getD_map_cast] at hh
      have hq := qcheck3 15 (by decide)
      rw [show sLo.getD 15 0 = (614208 / 1000000 : ℚ) from rfl,
        show sHi.getD 15 0 = (614217 / 1000000 : ℚ) from rfl] at hq
      have hc1 := (Rat.cast_le (K := ℝ)).mpr hq.1
      have hc2 := (Rat.cast_le (K := ℝ)).mpr hq.2
      rw [Rat.cast_add, Rat.cast_mul,
        show ((1 / 100 : ℚ) : ℝ) = 1 / 100 from by norm_num] at hc1 hc2
      exact interval_bound_lemma hl hh sinb15.1 sinb15.2 expb3.1 expb3.2
        (by push_cast; norm_num) (by push_cast; norm_num)
        hc1 hc2
    · rw [show Real.pi * (((16 : ℕ) : ℝ) * 1 / 19) / 1 =
          Real.pi * ((16 : ℕ) : ℝ) / 19 from by push_cast; ring]
      have hl := hlowD 16
      rw [getD_map_cast] at hl
      have hh := hhighD 16
      rw [getD_map_cast] at hh
      have hq := qcheck3 16 (by decide)
      rw [show sLo.getD 16 0 = (475942 / 1000000 : ℚ) from rfl,
        show sHi.getD 16 0 = (475952 / 1000000 : ℚ) from rfl] at hq
      have hc1 := (Rat.cast_le (K := ℝ)).mpr hq.1
      have hc2 := (Rat.cast_le (K := ℝ)).mpr hq.2
      rw [Rat.cast_add, Rat.cast_mul,
        show ((1 / 100 : ℚ) : ℝ) = 1 / 100 from by norm_num] at hc1 hc2
      exact interval_bound_lemma hl hh sinb16.1 sinb16.2 expb3.1 expb3.2
        (by push_cast; norm_num) (by push_cast; norm_num)
        hc1 hc2
    · rw [show Real.pi * (((17 : ℕ) : ℝ) * 1 / 19) / 1 =
          Real.pi * ((17 : ℕ) : ℝ) / 19 from by push_cast; ring]
      have hl := hlowD 17
      rw [getD_map_cast] at hl
      have hh := hhighD 17
      rw [getD_map_cast] at hh
      have hq := qcheck3 17 (by decide)
      rw [show sLo.getD 17 0 = (324695 / 1000000 : ℚ) from rfl,
        show sHi.getD 17 0 = (324704 / 1000000 : ℚ) from rfl] at hq
      have hc1 := (Rat.cast_le (K := ℝ)).mpr hq.1
      have hc2 := (Rat.cast_le (K := ℝ)).mpr hq.2
      rw [Rat.cast_add, Rat.cast_mul,
        show ((1 / 100 : ℚ) : ℝ) = 1 / 100 from by norm_num] at hc1 hc2
      exact interval_bound_lemma hl hh sinb17.1 sinb17.2 expb3.1 expb3.2
        (by push_cast; norm_num) (by push_cast; norm_num)
        hc1 hc2
    · rw [show Real.pi * (((18 : ℕ) : ℝ) * 1 / 19) / 1 =
          Real.pi * ((18 : ℕ) : ℝ) / 19 from by push_cast; ring]
      have hl := hlowD 18
      rw [getD_map_cast] at hl
      have hh := hhighD 18
      rw [getD_map_cast] at hh
      have hq := qcheck3 18 (by decide)
      rw [show sLo.getD 18 0 = (164590 / 1000000 : ℚ) from rfl,
        show sHi.getD 18 0 = (164599 / 1000000 : ℚ) from rfl] at hq
      have hc1 := (Rat.cast_le (K := ℝ)).mpr hq.1
      have hc2 := (Rat.cast_le (K := ℝ)).mpr hq.2
      rw [Rat.cast_add, Rat.cast_mul,
        show ((1 / 100 : ℚ) : ℝ) = 1 / 100 from by norm_num] at hc1 hc2
      exact interval_bound_lemma hl hh sinb18.1 sinb18.2 expb3.1 expb3.2
        (by push_cast; norm_num) (by push_cast; norm_num)
        hc1 hc2

/-- Witness for C8 at the first parameter set, L = 1 and tmax = 1/2. -/
theorem C8_witness :
    okBool (heat
      ([0] ++ ((List.range' 1 18).map fun k =>
        Real.sin (Real.pi * ((k : ℝ) * 1 / 19) / 1)) ++ [0])
      10 20 (1 / 100) 1 (1 / 2)) = true :=
  (C8_convergence 1 (1 / 2) (Or.inl ⟨rfl, rfl⟩)).1
